import Mathlib

/-
Verification of the lottery-scheduling simulator (Waldspurger & Weihl style).

Shallow embedding notes:
* Python integers are modelled by Int (they may go negative, e.g. ticket
  counts after a restitution that follows an automatic reassignment);
  counters that are only ever incremented from 0 (wait time, the global
  clock) are modelled by Nat.
* The random draw random.randint(1, total) is modelled by an oracle
  argument rand : Int; theorems quantify over rand with the bounds
  1 <= rand <= total that randint guarantees.  random.choice over the
  eligible list is modelled by an oracle index eleccion : Nat reduced
  modulo the list length.
* Python float arithmetic in the global-pool proportional mapping is
  modelled exactly with Rat.
* Object identity comparisons (list membership, list.remove, the aging
  guard proceso != proceso_actual) are modelled by comparison of the
  identificador field; the simulator is only ever used with distinct
  identifiers (the GUI rejects duplicates), under which the two notions
  coincide.
* Purely presentational state (event strings, the analysis object, colors,
  the speed setting, the history log) is omitted: no scheduling decision
  reads it.
-/

namespace Loteria

/-- Lifecycle state of a process; the source stores the literal strings
NUEVO, LISTO, EJECUTANDO, TERMINADO. -/
inductive Estado where
  | NUEVO
  | LISTO
  | EJECUTANDO
  | TERMINADO
deriving DecidableEq

/-- The Proceso record from proceso.py (the GUI-only color field is
omitted). -/
structure Proceso where
  identificador : Int
  num_tickets : Int
  num_tickets_original : Int
  tiempo_llegada : Int
  tiempo_cpu : Int
  tiempo_restante : Int
  tiempo_espera : Nat
  tiempo_retorno : Int
  tiempo_inicio_ejecucion : Int
  prioridad : Int
  proceso_servidor : Int
  tickets_prestados : Int
  estado : Estado
deriving DecidableEq

/-- Proceso.__init__ : derived fields exactly as in the constructor. -/
def mkProceso (identificador num_tickets tiempo_llegada tiempo_cpu prioridad proceso_servidor : Int) : Proceso :=
  { identificador := identificador
    num_tickets := num_tickets
    num_tickets_original := num_tickets
    tiempo_llegada := tiempo_llegada
    tiempo_cpu := tiempo_cpu
    tiempo_restante := tiempo_cpu
    tiempo_espera := 0
    tiempo_retorno := 0
    tiempo_inicio_ejecucion := -1
    prioridad := prioridad
    proceso_servidor := proceso_servidor
    tickets_prestados := 0
    estado := Estado.NUEVO }

/-- Proceso.es_cliente. -/
def es_cliente (p : Proceso) : Bool :=
  p.proceso_servidor != 0

/-- Proceso.puede_ejecutarse : clients may only run once their server has
completed. -/
def puede_ejecutarse (p : Proceso) (servidores_ejecutados : List Int) : Bool :=
  if es_cliente p then servidores_ejecutados.contains p.proceso_servidor else true

/-- The SimuladorLoteria state (presentation-only fields omitted, see the
header comment). -/
structure SimuladorLoteria where
  cola_listos : List Proceso
  proceso_actual : Option Proceso
  procesos_terminados : List Proceso
  tiempo_actual : Nat
  quantum : Int
  tiempo_quantum_restante : Int
  ticket_sorteado : Option Int
  total_tickets_actual : Int
  pausado : Bool
  servidores_ejecutados : List Int
  usar_tickets_manual : Bool
  pool_tickets_global : Option Int
deriving DecidableEq

/-- SimuladorLoteria.__init__. -/
def mkSimulador (quantum : Int) (usar_tickets_manual : Bool) (pool_tickets_global : Option Int) : SimuladorLoteria :=
  { cola_listos := []
    proceso_actual := none
    procesos_terminados := []
    tiempo_actual := 0
    quantum := quantum
    tiempo_quantum_restante := 0
    ticket_sorteado := none
    total_tickets_actual := 0
    pausado := false
    servidores_ejecutados := []
    usar_tickets_manual := usar_tickets_manual
    pool_tickets_global := pool_tickets_global }

/-- Identifiers of a process list. -/
def idsDe (l : List Proceso) : List Int :=
  l.map (fun p => p.identificador)

/-- First process with the given identifier. -/
def findById (l : List Proceso) (i : Int) : Option Proceso :=
  l.find? (fun p => p.identificador == i)

/-- list.remove of the first element with the given identifier
(cola_listos.remove(proceso_ganador); identifiers are unique in use). -/
def removeById : List Proceso → Int → List Proceso
  | [], _ => []
  | p :: ps, i => if p.identificador == i then ps else p :: removeById ps i

/-- sum(p.num_tickets for p in l). -/
def sumTickets (l : List Proceso) : Int :=
  (l.map (fun p => p.num_tickets)).sum

/-- The automatic ticket formula of _asignar_tickets :
base by priority plus the anti-starvation wait bonus. -/
def ticketsAutomaticos (p : Proceso) : Int :=
  p.prioridad * 10 + ((p.tiempo_espera / 5 : Nat) : Int)

/-- _asignar_tickets : overwrite every ready process's current ticket
count in place. -/
def asignar_tickets (l : List Proceso) : List Proceso :=
  l.map (fun p => { p with num_tickets := ticketsAutomaticos p })

/-- In automatic mode, recompute the whole ready queue's tickets; manual
mode never recomputes. -/
def aplicarTicketsAuto (s : SimuladorLoteria) : SimuladorLoteria :=
  if s.usar_tickets_manual then s
  else { s with cola_listos := asignar_tickets s.cola_listos }

/-- agregar_proceso : mark LISTO, append to the ready queue, and in
automatic mode recompute tickets for the whole queue. -/
def agregar_proceso (s : SimuladorLoteria) (proceso : Proceso) : SimuladorLoteria :=
  aplicarTicketsAuto
    { s with cola_listos := s.cola_listos ++ [{ proceso with estado := Estado.LISTO }] }

/-- The eligible (valid) processes of the draw: ready processes whose
server dependency, if any, has completed. -/
def elegibles (s : SimuladorLoteria) : List Proceso :=
  s.cola_listos.filter (fun p => puede_ejecutarse p s.servidores_ejecutados)

/-- Direct-mode winner loop: accumulate ticket counts in queue order and
stop at the first process whose cumulative total reaches the drawn
ticket; None if the loop completes. -/
def ganadorDirecto (rand : Int) : Int → List Proceso → Option Proceso
  | _, [] => none
  | acum, p :: ps =>
      if rand ≤ acum + p.num_tickets then some p
      else ganadorDirecto rand (acum + p.num_tickets) ps

/-- Global-pool winner loop: proportional shares of the pool accumulated
in queue order (Python floats modelled by Rat); the for-else clause makes
the last process absorb any residual. -/
def ganadorPool (rand pool suma : Int) : Rat → List Proceso → Option Proceso
  | _, [] => none
  | acum, p :: ps =>
      if (rand : Rat) ≤ acum + ((p.num_tickets : Rat) / (suma : Rat)) * (pool : Rat) then some p
      else if ps.isEmpty then some p
      else ganadorPool rand pool suma (acum + ((p.num_tickets : Rat) / (suma : Rat)) * (pool : Rat)) ps

/-- Placeholder record used only as the List.getD default; the draw never
reads it on a non-empty eligible list. -/
def procesoPorDefecto : Proceso :=
  mkProceso 0 0 0 0 1 0

/-- _sortear_proceso : returns the updated simulator state (the recorded
drawn ticket and total) together with the winner, if any.  rand stands for
random.randint(1, total) and eleccion indexes random.choice. -/
def sortearProceso (s : SimuladorLoteria) (rand : Int) (eleccion : Nat) : SimuladorLoteria × Option Proceso :=
  let validos := elegibles s
  if validos.isEmpty then (s, none)
  else
    let total :=
      match s.pool_tickets_global with
      | some pool => pool
      | none => sumTickets validos
    if total == 0 then (s, none)
    else
      let s2 := { s with ticket_sorteado := some rand, total_tickets_actual := total }
      let ganador :=
        match s.pool_tickets_global with
        | some pool =>
            let suma := sumTickets validos
            if suma == 0 then some (validos.getD (eleccion % validos.length) procesoPorDefecto)
            else ganadorPool rand pool suma 0 validos
        | none => ganadorDirecto rand 0 validos
      (s2, ganador)

/-- _prestar_tickets at its call site (both the client and the server are
members of the ready queue, referenced here by identifier): the client's
whole current ticket count moves to the server and both lent counters
record it. -/
def prestar_tickets (s : SimuladorLoteria) (cid sid : Int) : SimuladorLoteria × Bool :=
  match findById s.cola_listos sid, findById s.cola_listos cid with
  | some _, some cliente =>
      ({ s with cola_listos := s.cola_listos.map (fun p =>
            if p.identificador == sid then
              { p with tickets_prestados := p.tickets_prestados + cliente.num_tickets,
                       num_tickets := p.num_tickets + cliente.num_tickets }
            else if p.identificador == cid then
              { p with tickets_prestados := cliente.num_tickets, num_tickets := 0 }
            else p) }, true)
  | _, _ => (s, false)

/-- _devolver_tickets : walk the ready queue in order; every client of the
given server with positive lent tickets gets them back, the server's
count and lent counter shrinking accordingly (the server object is
threaded through, as the in-place mutation does). -/
def devolver_tickets (servidor : Proceso) : List Proceso → List Proceso × Proceso
  | [] => ([], servidor)
  | p :: ps =>
      if p.proceso_servidor == servidor.identificador && decide (0 < p.tickets_prestados) then
        ({ p with num_tickets := p.num_tickets + p.tickets_prestados,
                  tickets_prestados := 0 } ::
           (devolver_tickets { servidor with
               num_tickets := servidor.num_tickets - p.tickets_prestados,
               tickets_prestados := servidor.tickets_prestados - p.tickets_prestados } ps).1,
         (devolver_tickets { servidor with
             num_tickets := servidor.num_tickets - p.tickets_prestados,
             tickets_prestados := servidor.tickets_prestados - p.tickets_prestados } ps).2)
      else
        (p :: (devolver_tickets servidor ps).1, (devolver_tickets servidor ps).2)

/-- set.add on the completed-server identifier set (membership-preserving
model of the Python set). -/
def agregarServidor (l : List Int) (i : Int) : List Int :=
  if l.contains i then l else l ++ [i]

/-- Step 2 of ejecutar_ciclo : advance the clock. -/
def faseReloj (s : SimuladorLoteria) : SimuladorLoteria :=
  { s with tiempo_actual := s.tiempo_actual + 1 }

/-- Step A of ejecutar_ciclo : every ready process other than the running
one accumulates one unit of wait time. -/
def faseEnvejecimiento (s : SimuladorLoteria) : SimuladorLoteria :=
  { s with cola_listos := s.cola_listos.map (fun p =>
      match s.proceso_actual with
      | some a =>
          if p.identificador == a.identificador then p
          else { p with tiempo_espera := p.tiempo_espera + 1 }
      | none => { p with tiempo_espera := p.tiempo_espera + 1 }) }

/-- Quantum-expiry preemption: a running process with remaining time left
is re-queued at the back of the ready queue. -/
def expulsarPorQuantum (s : SimuladorLoteria) : SimuladorLoteria :=
  match s.proceso_actual with
  | some a =>
      if 0 < a.tiempo_restante then
        { s with cola_listos := s.cola_listos ++ [{ a with estado := Estado.LISTO }],
                 proceso_actual := none }
      else s
  | none => s

/-- The state handed to the lottery draw: quantum-expiry preemption
re-queues the running process, then automatic mode recomputes every ready
process's tickets. -/
def prepararSorteo (s : SimuladorLoteria) : SimuladorLoteria :=
  aplicarTicketsAuto (expulsarPorQuantum s)

/-- First-dispatch bookkeeping: the sentinel -1 is replaced by the
current clock the first time a process is scheduled. -/
def inicioEjecucion (g : Proceso) (t : Nat) : Proceso :=
  if g.tiempo_inicio_ejecucion == -1 then { g with tiempo_inicio_ejecucion := (t : Int) }
  else g

/-- Install a restitution result (new ready queue, server after giving
back lent tickets) as the running process, resetting the quantum. -/
def instalarGanador (s : SimuladorLoteria) (dev : List Proceso × Proceso) : SimuladorLoteria :=
  { s with cola_listos := dev.1,
           proceso_actual := some dev.2,
           tiempo_quantum_restante := s.quantum }

/-- Winner handling of ejecutar_ciclo : remove the winner from the queue,
mark it running, reset the quantum, record the first dispatch, and give
lent tickets back to its clients before it executes. -/
def despachar (s : SimuladorLoteria) (rand : Int) (eleccion : Nat) : SimuladorLoteria :=
  match (sortearProceso s rand eleccion).2 with
  | none => (sortearProceso s rand eleccion).1
  | some g =>
      instalarGanador (sortearProceso s rand eleccion).1
        (devolver_tickets
          (inicioEjecucion { g with estado := Estado.EJECUTANDO }
            ((sortearProceso s rand eleccion).1).tiempo_actual)
          (removeById ((sortearProceso s rand eleccion).1).cola_listos g.identificador))

/-- Step B of ejecutar_ciclo : a new draw happens when nothing is running
or the quantum has expired. -/
def faseDespacho (s : SimuladorLoteria) (rand : Int) (eleccion : Nat) : SimuladorLoteria :=
  if s.proceso_actual.isNone || s.tiempo_quantum_restante == 0 then
    despachar (prepararSorteo s) rand eleccion
  else s

/-- Steps C and D of ejecutar_ciclo : the running process consumes one
cycle; on remaining time 0 it is terminated, its turnaround recorded, and
its identifier added to the completed-server set. -/
def faseEjecucion (s : SimuladorLoteria) : SimuladorLoteria :=
  match s.proceso_actual with
  | none => s
  | some a =>
      if a.tiempo_restante - 1 == (0 : Int) then
        { s with procesos_terminados := s.procesos_terminados ++
                   [{ a with tiempo_restante := a.tiempo_restante - 1,
                             estado := Estado.TERMINADO,
                             tiempo_retorno := (s.tiempo_actual : Int) - a.tiempo_llegada }],
                 servidores_ejecutados := agregarServidor s.servidores_ejecutados a.identificador,
                 proceso_actual := none,
                 tiempo_quantum_restante := 0 }
      else { s with proceso_actual := some { a with tiempo_restante := a.tiempo_restante - 1 },
                    tiempo_quantum_restante := s.tiempo_quantum_restante - 1 }

/-- ejecutar_ciclo : one clock cycle of the simulator; rand and eleccion
are the random oracle of this cycle's draw, unused when no draw happens. -/
def ejecutar_ciclo (s : SimuladorLoteria) (rand : Int) (eleccion : Nat) : SimuladorLoteria :=
  if s.pausado then s
  else faseEjecucion (faseDespacho (faseEnvejecimiento (faseReloj s)) rand eleccion)

/-- simular_entrada_salida : force the running process back to the ready
queue. -/
def simular_entrada_salida (s : SimuladorLoteria) : SimuladorLoteria × Bool :=
  match s.proceso_actual with
  | some a =>
      ({ s with cola_listos := s.cola_listos ++ [{ a with estado := Estado.LISTO }],
                proceso_actual := none,
                tiempo_quantum_restante := 0 }, true)
  | none => (s, false)

/-- pausar. -/
def pausar (s : SimuladorLoteria) : SimuladorLoteria :=
  { s with pausado := true }

/-- reanudar. -/
def reanudar (s : SimuladorLoteria) : SimuladorLoteria :=
  { s with pausado := false }

/-- reiniciar : every mutable structure cleared, the construction-time
configuration kept. -/
def reiniciar (s : SimuladorLoteria) : SimuladorLoteria :=
  mkSimulador s.quantum s.usar_tickets_manual s.pool_tickets_global

/-- The record returned by obtener_estadisticas (Python float averages
modelled exactly by Rat). -/
structure Estadisticas where
  tiempo_total : Nat
  cuenta_terminados : Nat
  promedio_espera : Rat
  promedio_retorno : Rat
  promedio_respuesta : Rat
  procesos : List Proceso
deriving DecidableEq

/-- obtener_estadisticas : None until a process has terminated, then the
three averages over the terminated list.  It takes the state and returns
only a report: the embedding has no state output, matching the source,
which performs no assignment. -/
def obtener_estadisticas (s : SimuladorLoteria) : Option Estadisticas :=
  if s.procesos_terminados.isEmpty then none
  else
    let n := s.procesos_terminados.length
    some
      { tiempo_total := s.tiempo_actual
        cuenta_terminados := n
        promedio_espera := (((s.procesos_terminados.map (fun p => (p.tiempo_espera : Int))).sum : Int) : Rat) / (n : Rat)
        promedio_retorno := (((s.procesos_terminados.map (fun p => p.tiempo_retorno)).sum : Int) : Rat) / (n : Rat)
        promedio_respuesta := (((s.procesos_terminados.map (fun p => p.tiempo_inicio_ejecucion - p.tiempo_llegada)).sum : Int) : Rat) / (n : Rat)
        procesos := s.procesos_terminados }

/-- The error taxonomy of process creation in agregar_proceso_manual
(main.py): each early-return error dialog becomes one constructor. -/
inductive ErrorCreacion where
  | cpuInvalido
  | prioridadInvalida
  | idDuplicado
  | servidorInexistente
deriving DecidableEq

/-- agregar_proceso_manual (main.py) after integer parsing: the
validation chain in source order, then Proceso construction; tickets are
left at the constructor default here, the caller configuring them
afterwards. -/
def agregar_proceso_manual (pid tiempo_cpu prioridad servidor : Int) (procesos_creados : List Proceso) : Except ErrorCreacion Proceso :=
  if tiempo_cpu ≤ 0 then Except.error ErrorCreacion.cpuInvalido
  else if prioridad < 1 ∨ 5 < prioridad then Except.error ErrorCreacion.prioridadInvalida
  else if procesos_creados.any (fun p => p.identificador == pid) then Except.error ErrorCreacion.idDuplicado
  else if servidor != 0 && !(procesos_creados.any (fun p => p.identificador == servidor)) then Except.error ErrorCreacion.servidorInexistente
  else Except.ok (mkProceso pid 0 0 tiempo_cpu prioridad servidor)

/-- Total amount of lent tickets that _devolver_tickets collects back for
a given server from a ready queue. -/
def totalPrestado (sid : Int) (l : List Proceso) : Int :=
  ((l.filter (fun p => p.proceso_servidor == sid && decide (0 < p.tickets_prestados))).map
    (fun p => p.tickets_prestados)).sum

/-- The running process, if any, has an identifier different from i. -/
def actualDistinto (s : SimuladorLoteria) (i : Int) : Prop :=
  match s.proceso_actual with
  | some a => a.identificador ≠ i
  | none => True

/-- Iterated cycles: runCycles f n s is the state after n cycles, cycle k
drawing with the oracle pair f k. -/
def runCycles (f : Nat → Int × Nat) : Nat → SimuladorLoteria → SimuladorLoteria
  | 0, s => s
  | n + 1, s => ejecutar_ciclo (runCycles f n s) (f n).1 (f n).2

/-- Insertion into a list sorted by ascending identifier. -/
def insertarPorId (p : Proceso) : List Proceso → List Proceso
  | [] => [p]
  | q :: qs =>
      if p.identificador ≤ q.identificador then p :: q :: qs
      else q :: insertarPorId p qs

/-- Sort by ascending identifier. -/
def ordenarPorId : List Proceso → List Proceso
  | [] => []
  | p :: ps => insertarPorId p (ordenarPorId ps)

/-- Modelled from the claim's words, for comparison with the source draw:
a direct-mode draw that iterates the eligible processes in ascending order
of identifier while accumulating ticket counts. -/
def sortearPorIdentificador (s : SimuladorLoteria) (rand : Int) : Option Proceso :=
  let validos := ordenarPorId (elegibles s)
  if validos.isEmpty then none
  else if sumTickets validos == 0 then none
  else ganadorDirecto rand 0 validos

section ListLemmas

theorem findById_map (l : List Proceso) (f : Proceso → Proceso)
    (hf : ∀ p, (f p).identificador = p.identificador) (i : Int) :
    findById (l.map f) i = (findById l i).map f := by
  induction l with
  | nil => rfl
  | cons p ps ih =>
      simp only [findById, List.map_cons] at *
      by_cases h : p.identificador = i
      · rw [List.find?_cons_of_pos _ (by simp [hf p, h]),
            List.find?_cons_of_pos _ (by simp [h])]
        rfl
      · rw [List.find?_cons_of_neg _ (by simp [hf p, h]),
            List.find?_cons_of_neg _ (by simp [h])]
        exact ih

theorem idsDe_map (l : List Proceso) (f : Proceso → Proceso)
    (hf : ∀ p, (f p).identificador = p.identificador) :
    idsDe (l.map f) = idsDe l := by
  induction l with
  | nil => rfl
  | cons p ps ih => simp [idsDe, hf p] at *; exact ih

theorem findById_append (l r : List Proceso) (i : Int) (p : Proceso)
    (h : findById l i = some p) : findById (l ++ r) i = some p := by
  induction l with
  | nil => simp [findById] at h
  | cons q qs ih =>
      simp only [findById, List.cons_append] at *
      by_cases hq : q.identificador = i
      · rw [List.find?_cons_of_pos _ (by simp [hq])] at h ⊢; exact h
      · rw [List.find?_cons_of_neg _ (by simp [hq])] at h ⊢; exact ih h

theorem findById_removeById_ne (l : List Proceso) (i j : Int) (hne : i ≠ j) :
    findById (removeById l j) i = findById l i := by
  induction l with
  | nil => rfl
  | cons p ps ih =>
      simp only [removeById]
      by_cases hp : (p.identificador == j) = true
      · rw [if_pos hp]
        have hpj : p.identificador = j := by simpa using hp
        have hpi : ¬ p.identificador = i := fun h => hne (h ▸ hpj)
        simp only [findById]
        rw [List.find?_cons_of_neg _ (by simp [hpi])]
      · rw [if_neg hp]
        simp only [findById] at *
        by_cases hi : p.identificador = i
        · rw [List.find?_cons_of_pos _ (by simp [hi]),
              List.find?_cons_of_pos _ (by simp [hi])]
        · rw [List.find?_cons_of_neg _ (by simp [hi]),
              List.find?_cons_of_neg _ (by simp [hi])]
          exact ih

theorem removeById_sublist (l : List Proceso) (j : Int) :
    (removeById l j).Sublist l := by
  induction l with
  | nil => simp [removeById]
  | cons p ps ih =>
      simp only [removeById]
      by_cases hp : (p.identificador == j) = true
      · rw [if_pos hp]; exact (List.sublist_cons_self p ps)
      · rw [if_neg hp]; exact ih.cons₂ p

theorem idsDe_sublist_of_sublist {l l' : List Proceso} (h : l'.Sublist l) :
    (idsDe l').Sublist (idsDe l) := by
  simpa [idsDe] using h.map (fun p => p.identificador)

theorem not_mem_idsDe_removeById (l : List Proceso) (j : Int)
    (hnd : (idsDe l).Nodup) : j ∉ idsDe (removeById l j) := by
  induction l with
  | nil => simp [removeById, idsDe]
  | cons p ps ih =>
      simp only [idsDe, List.map_cons, List.nodup_cons] at hnd
      simp only [removeById]
      by_cases hp : (p.identificador == j) = true
      · rw [if_pos hp]
        have : p.identificador = j := by simpa using hp
        rw [← this]; exact fun hc => hnd.1 (by simpa [idsDe] using hc)
      · rw [if_neg hp]
        intro hc
        simp only [idsDe, List.map_cons, List.mem_cons] at hc
        rcases hc with hc | hc
        · exact hp (by simpa using hc.symm)
        · exact ih hnd.2 (by simpa [idsDe] using hc)

theorem findById_eq_of_mem_nodup (l : List Proceso) (p : Proceso)
    (hmem : p ∈ l) (hnd : (idsDe l).Nodup) :
    findById l p.identificador = some p := by
  induction l with
  | nil => simp at hmem
  | cons q qs ih =>
      simp only [idsDe, List.map_cons, List.nodup_cons] at hnd
      rcases List.mem_cons.mp hmem with h | h
      · subst h; simp [findById, List.find?_cons]
      · have hq : q.identificador ≠ p.identificador := by
          intro he
          exact hnd.1 (he ▸ (by simpa [idsDe] using List.mem_map_of_mem (fun r => r.identificador) h))
        simp only [findById]
        rw [List.find?_cons_of_neg _ (by simp [hq])]
        exact ih h hnd.2

theorem mem_of_findById {l : List Proceso} {i : Int} {p : Proceso}
    (h : findById l i = some p) : p ∈ l ∧ p.identificador = i := by
  induction l with
  | nil => simp [findById] at h
  | cons q qs ih =>
      simp only [findById] at h
      by_cases hq : q.identificador = i
      · rw [List.find?_cons_of_pos _ (by simp [hq])] at h
        cases h
        exact ⟨List.mem_cons_self _ _, hq⟩
      · rw [List.find?_cons_of_neg _ (by simp [hq])] at h
        rcases ih h with ⟨h1, h2⟩
        exact ⟨List.mem_cons_of_mem _ h1, h2⟩

end ListLemmas

section DevolverLemmas

/-- The ready-queue component of the restitution: pointwise, every client
of the server with positive lent tickets is restored, everything else is
untouched (the threaded server object never changes its identifier, so
the inner loop is a map). -/
theorem devolver_fst (srv : Proceso) (l : List Proceso) :
    (devolver_tickets srv l).1 = l.map (fun p =>
      if p.proceso_servidor == srv.identificador && decide (0 < p.tickets_prestados) then
        { p with num_tickets := p.num_tickets + p.tickets_prestados, tickets_prestados := 0 }
      else p) := by
  induction l generalizing srv with
  | nil => rfl
  | cons p ps ih =>
      simp only [devolver_tickets, List.map_cons]
      by_cases hc : (p.proceso_servidor == srv.identificador && decide (0 < p.tickets_prestados)) = true
      · rw [if_pos hc, if_pos hc]
        simp only [List.cons.injEq, true_and]
        exact ih _
      · rw [if_neg hc, if_neg hc]
        simp only [List.cons.injEq, true_and]
        exact ih _

/-- The server component of the restitution: it loses exactly the total
lent amount of its queued clients, on both counters, and nothing else. -/
theorem devolver_snd (srv : Proceso) (l : List Proceso) :
    (devolver_tickets srv l).2 =
      { srv with num_tickets := srv.num_tickets - totalPrestado srv.identificador l,
                 tickets_prestados := srv.tickets_prestados - totalPrestado srv.identificador l } := by
  induction l generalizing srv with
  | nil => simp [devolver_tickets, totalPrestado]
  | cons p ps ih =>
      simp only [devolver_tickets]
      by_cases hc : (p.proceso_servidor == srv.identificador && decide (0 < p.tickets_prestados)) = true
      · rw [if_pos hc]
        dsimp only
        rw [ih]
        have hfil : totalPrestado srv.identificador (p :: ps) =
            p.tickets_prestados + totalPrestado srv.identificador ps := by
          unfold totalPrestado
          rw [List.filter_cons, if_pos hc, List.map_cons, List.sum_cons]
        rw [hfil]
        congr 1 <;> ring
      · rw [if_neg hc]
        dsimp only
        rw [ih]
        have hfil : totalPrestado srv.identificador (p :: ps) =
            totalPrestado srv.identificador ps := by
          unfold totalPrestado
          rw [List.filter_cons, if_neg hc]
        rw [hfil]

/-- When exactly one queued process lends to the server, the total is
that process's lent amount. -/
theorem totalPrestado_unico (sid : Int) (l : List Proceso) (c : Proceso)
    (hmem : c ∈ l) (hnd : (idsDe l).Nodup)
    (hc : c.proceso_servidor = sid ∧ 0 < c.tickets_prestados)
    (hother : ∀ p ∈ l, p.identificador ≠ c.identificador →
      ¬(p.proceso_servidor = sid ∧ 0 < p.tickets_prestados)) :
    totalPrestado sid l = c.tickets_prestados := by
  induction l with
  | nil => simp at hmem
  | cons q qs ih =>
      simp only [idsDe, List.map_cons, List.nodup_cons] at hnd
      rcases List.mem_cons.mp hmem with h | h
      · subst h
        have hqs : ∀ p ∈ qs, ¬(p.proceso_servidor = sid ∧ 0 < p.tickets_prestados) := by
          intro p hp
          refine hother p (List.mem_cons_of_mem _ hp) ?_
          intro he
          exact hnd.1 (he ▸ (by simpa [idsDe] using List.mem_map_of_mem (fun r => r.identificador) hp))
        have hfilter : qs.filter (fun p => p.proceso_servidor == sid && decide (0 < p.tickets_prestados)) = [] := by
          rw [List.filter_eq_nil_iff]
          intro p hp
          have := hqs p hp
          simp only [Bool.and_eq_true, beq_iff_eq, decide_eq_true_eq]
          intro hcontra
          exact this hcontra
        simp [totalPrestado, List.filter_cons, hc.1, hc.2, hfilter]
      · have hq : ¬(q.proceso_servidor = sid ∧ 0 < q.tickets_prestados) := by
          refine hother q (List.mem_cons_self _ _) ?_
          intro he
          exact hnd.1 (he.symm ▸ (by simpa [idsDe] using List.mem_map_of_mem (fun r => r.identificador) h))
        have hqb : (q.proceso_servidor == sid && decide (0 < q.tickets_prestados)) = false := by
          simp only [Bool.and_eq_false_iff, beq_eq_false_iff_ne, ne_eq, decide_eq_false_iff_not, not_lt]
          by_cases h1 : q.proceso_servidor = sid
          · right; by_contra h2; exact hq ⟨h1, by omega⟩
          · left; exact h1
        simp only [totalPrestado, List.filter_cons, hqb]
        exact ih h hnd.2 (fun p hp hne => hother p (List.mem_cons_of_mem _ hp) hne)

end DevolverLemmas

section GanadorLemmas

theorem sumTickets_nil : sumTickets [] = 0 := rfl

theorem sumTickets_cons (p : Proceso) (ps : List Proceso) :
    sumTickets (p :: ps) = p.num_tickets + sumTickets ps := by
  simp [sumTickets]

theorem ganadorDirecto_mem {rand acum : Int} {l : List Proceso} {g : Proceso}
    (h : ganadorDirecto rand acum l = some g) : g ∈ l := by
  induction l generalizing acum with
  | nil => simp [ganadorDirecto] at h
  | cons p ps ih =>
      simp only [ganadorDirecto] at h
      by_cases hc : rand ≤ acum + p.num_tickets
      · rw [if_pos hc] at h; cases h; exact List.mem_cons_self _ _
      · rw [if_neg hc] at h; exact List.mem_cons_of_mem _ (ih h)

theorem ganadorPool_mem {rand pool suma : Int} {acum : Rat} {l : List Proceso} {g : Proceso}
    (h : ganadorPool rand pool suma acum l = some g) : g ∈ l := by
  induction l generalizing acum with
  | nil => simp [ganadorPool] at h
  | cons p ps ih =>
      rw [ganadorPool] at h
      by_cases hc : (rand : Rat) ≤ acum + ((p.num_tickets : Rat) / (suma : Rat)) * (pool : Rat)
      · rw [if_pos hc] at h; cases h; exact List.mem_cons_self _ _
      · rw [if_neg hc] at h
        by_cases he : ps.isEmpty
        · rw [if_pos he] at h; cases h; exact List.mem_cons_self _ _
        · rw [if_neg he] at h; exact List.mem_cons_of_mem _ (ih h)

/-- Direct-mode accumulation: on a drawn ticket inside the remaining
range, the loop stops at the first index whose cumulative total reaches
the ticket, and that index owns exactly the range above the previous
cumulative total. -/
theorem ganadorDirecto_spec (l : List Proceso) (rand : Int) :
    ∀ acum : Int, acum < rand → rand ≤ acum + sumTickets l →
    ∃ i, ∃ h : i < l.length,
      ganadorDirecto rand acum l = some (l.get ⟨i, h⟩) ∧
      acum + sumTickets (l.take i) < rand ∧
      rand ≤ acum + sumTickets (l.take i) + (l.get ⟨i, h⟩).num_tickets ∧
      ∀ j, j < i → acum + sumTickets (l.take (j + 1)) < rand := by
  induction l with
  | nil =>
      intro acum h1 h2
      rw [sumTickets_nil] at h2
      omega
  | cons p ps ih =>
      intro acum h1 h2
      by_cases hc : rand ≤ acum + p.num_tickets
      · refine ⟨0, by simp, ?_, ?_, ?_, ?_⟩
        · simp [ganadorDirecto, hc]
        · simpa [sumTickets_nil]
        · simpa [sumTickets_nil] using hc
        · intro j hj; omega
      · have h2' : rand ≤ (acum + p.num_tickets) + sumTickets ps := by
          rw [sumTickets_cons] at h2; omega
        rcases ih (acum + p.num_tickets) (by omega) h2' with ⟨i, hi, hw, hlow, hhigh, hfirst⟩
        refine ⟨i + 1, by simpa using Nat.succ_lt_succ hi, ?_, ?_, ?_, ?_⟩
        · simpa [ganadorDirecto, hc] using hw
        · simpa [List.take_succ_cons, sumTickets_cons, add_assoc] using hlow
        · simpa [List.take_succ_cons, sumTickets_cons, add_assoc] using hhigh
        · intro j hj
          cases j with
          | zero =>
              simpa [List.take_succ_cons, sumTickets_cons, sumTickets_nil] using
                (by omega : acum + p.num_tickets < rand)
          | succ k =>
              have := hfirst k (by omega)
              simpa [List.take_succ_cons, sumTickets_cons, add_assoc] using this

end GanadorLemmas

section SorteoLemmas

theorem elegibles_sublist (s : SimuladorLoteria) : (elegibles s).Sublist s.cola_listos :=
  List.filter_sublist s.cola_listos

theorem mem_of_mem_elegibles {s : SimuladorLoteria} {p : Proceso}
    (h : p ∈ elegibles s) : p ∈ s.cola_listos :=
  (elegibles_sublist s).mem h

/-- The draw never touches the scheduling state: only the drawn-ticket
record fields of the returned state may differ. -/
theorem sortearProceso_fst (s : SimuladorLoteria) (rand : Int) (eleccion : Nat) :
    ((sortearProceso s rand eleccion).1).cola_listos = s.cola_listos ∧
    ((sortearProceso s rand eleccion).1).proceso_actual = s.proceso_actual ∧
    ((sortearProceso s rand eleccion).1).procesos_terminados = s.procesos_terminados ∧
    ((sortearProceso s rand eleccion).1).tiempo_actual = s.tiempo_actual ∧
    ((sortearProceso s rand eleccion).1).quantum = s.quantum ∧
    ((sortearProceso s rand eleccion).1).tiempo_quantum_restante = s.tiempo_quantum_restante ∧
    ((sortearProceso s rand eleccion).1).pausado = s.pausado ∧
    ((sortearProceso s rand eleccion).1).servidores_ejecutados = s.servidores_ejecutados ∧
    ((sortearProceso s rand eleccion).1).usar_tickets_manual = s.usar_tickets_manual ∧
    ((sortearProceso s rand eleccion).1).pool_tickets_global = s.pool_tickets_global := by
  unfold sortearProceso
  by_cases h1 : (elegibles s).isEmpty
  · simp [h1]
  · simp only [h1, Bool.false_eq_true, if_false]
    cases hpool : s.pool_tickets_global with
    | none =>
        simp only [hpool]
        by_cases h2 : (sumTickets (elegibles s) == 0) = true
        · simp [h2, hpool]
        · simp [h2, hpool]
    | some pool =>
        simp only [hpool]
        by_cases h2 : (pool == 0) = true
        · simp [h2, hpool]
        · simp [h2, hpool]

/-- Any winner returned by the draw is one of the eligible processes. -/
theorem sortear_ganador_mem {s : SimuladorLoteria} {rand : Int} {eleccion : Nat} {g : Proceso}
    (h : (sortearProceso s rand eleccion).2 = some g) : g ∈ elegibles s := by
  unfold sortearProceso at h
  by_cases h1 : (elegibles s).isEmpty
  · simp [h1] at h
  · simp only [h1, Bool.false_eq_true, if_false] at h
    have hne : elegibles s ≠ [] := by
      intro hc; rw [hc] at h1; simp at h1
    cases hpool : s.pool_tickets_global with
    | none =>
        simp only [hpool] at h
        by_cases h2 : (sumTickets (elegibles s) == 0) = true
        · simp [h2] at h
        · simp only [h2, Bool.false_eq_true, if_false] at h
          exact ganadorDirecto_mem h
    | some pool =>
        simp only [hpool] at h
        by_cases h2 : (pool == 0) = true
        · simp [h2] at h
        · simp only [h2, Bool.false_eq_true, if_false] at h
          by_cases h3 : (sumTickets (elegibles s) == 0) = true
          · simp only [h3, if_pos rfl] at h
            cases h
            rw [List.getD_eq_getElem _ _ (Nat.mod_lt _ (List.length_pos.mpr hne))]
            exact List.getElem_mem _
          · simp only [h3, Bool.false_eq_true, if_false] at h
            exact ganadorPool_mem h

end SorteoLemmas

section FaseLemmas

theorem faseReloj_proj (s : SimuladorLoteria) :
    (faseReloj s).cola_listos = s.cola_listos ∧
    (faseReloj s).proceso_actual = s.proceso_actual ∧
    (faseReloj s).tiempo_actual = s.tiempo_actual + 1 ∧
    (faseReloj s).procesos_terminados = s.procesos_terminados ∧
    (faseReloj s).pausado = s.pausado ∧
    (faseReloj s).usar_tickets_manual = s.usar_tickets_manual ∧
    (faseReloj s).pool_tickets_global = s.pool_tickets_global ∧
    (faseReloj s).servidores_ejecutados = s.servidores_ejecutados ∧
    (faseReloj s).tiempo_quantum_restante = s.tiempo_quantum_restante ∧
    (faseReloj s).quantum = s.quantum := by
  refine ⟨rfl, rfl, rfl, rfl, rfl, rfl, rfl, rfl, rfl, rfl⟩

theorem faseEnvejecimiento_proj (s : SimuladorLoteria) :
    (faseEnvejecimiento s).proceso_actual = s.proceso_actual ∧
    (faseEnvejecimiento s).tiempo_actual = s.tiempo_actual ∧
    (faseEnvejecimiento s).procesos_terminados = s.procesos_terminados ∧
    (faseEnvejecimiento s).pausado = s.pausado ∧
    (faseEnvejecimiento s).usar_tickets_manual = s.usar_tickets_manual ∧
    (faseEnvejecimiento s).pool_tickets_global = s.pool_tickets_global ∧
    (faseEnvejecimiento s).servidores_ejecutados = s.servidores_ejecutados ∧
    (faseEnvejecimiento s).tiempo_quantum_restante = s.tiempo_quantum_restante ∧
    (faseEnvejecimiento s).quantum = s.quantum := by
  refine ⟨rfl, rfl, rfl, rfl, rfl, rfl, rfl, rfl, rfl⟩

theorem prepararSorteo_of_none {s : SimuladorLoteria} (h : s.proceso_actual = none) :
    (prepararSorteo s).proceso_actual = none ∧
    (prepararSorteo s).tiempo_actual = s.tiempo_actual ∧
    (prepararSorteo s).procesos_terminados = s.procesos_terminados ∧
    (prepararSorteo s).pausado = s.pausado ∧
    (prepararSorteo s).usar_tickets_manual = s.usar_tickets_manual ∧
    (prepararSorteo s).pool_tickets_global = s.pool_tickets_global ∧
    (prepararSorteo s).servidores_ejecutados = s.servidores_ejecutados ∧
    (prepararSorteo s).cola_listos =
      (if s.usar_tickets_manual then s.cola_listos else asignar_tickets s.cola_listos) := by
  have h1 : expulsarPorQuantum s = s := by
    unfold expulsarPorQuantum
    rw [h]
  unfold prepararSorteo
  rw [h1]
  unfold aplicarTicketsAuto
  by_cases hm : s.usar_tickets_manual
  · simp [hm, h]
  · simp [hm, h]

theorem despachar_of_none {s : SimuladorLoteria} {rand : Int} {eleccion : Nat}
    (h : (sortearProceso s rand eleccion).2 = none) :
    despachar s rand eleccion = (sortearProceso s rand eleccion).1 := by
  unfold despachar
  rw [h]

theorem faseEjecucion_of_none {s : SimuladorLoteria} (h : s.proceso_actual = none) :
    faseEjecucion s = s := by
  unfold faseEjecucion
  rw [h]

end FaseLemmas

section EstadosDeEjemplo

/-- Manual-mode simulator with a single admitted client whose server has
not completed: no eligible process. -/
def ejemploSinElegibles : SimuladorLoteria :=
  agregar_proceso (mkSimulador 2 true none) (mkProceso 1 10 0 3 1 7)

/-- Manual-mode direct simulator with one eligible process holding zero
tickets. -/
def ejemploCeroTickets : SimuladorLoteria :=
  agregar_proceso (mkSimulador 2 true none) (mkProceso 1 0 0 3 1 0)

/-- Global-pool simulator (pool 30) with two eligible zero-ticket
processes. -/
def ejemploPoolCero : SimuladorLoteria :=
  agregar_proceso (agregar_proceso (mkSimulador 2 true (some 30)) (mkProceso 1 0 0 3 1 0))
    (mkProceso 2 0 0 3 1 0)

end EstadosDeEjemplo

/-- C5: the lottery draw returns no winner when no eligible ready process
exists, and in direct mode also when the eligible ticket sum is 0; in
both cases the state is returned unchanged (no error path exists) and a
cycle whose draw returns no winner leaves the CPU unassigned while the
clock still advances. -/
theorem sorteo_sin_ganador_ciclo_inactivo :
    (∀ (s : SimuladorLoteria) (rand : Int) (eleccion : Nat),
       elegibles s = [] → sortearProceso s rand eleccion = (s, none)) ∧
    (∀ (s : SimuladorLoteria) (rand : Int) (eleccion : Nat),
       s.pool_tickets_global = none → sumTickets (elegibles s) = 0 →
       sortearProceso s rand eleccion = (s, none)) ∧
    (∀ (s : SimuladorLoteria) (rand : Int) (eleccion : Nat),
       s.pausado = false → s.proceso_actual = none →
       (sortearProceso (prepararSorteo (faseEnvejecimiento (faseReloj s))) rand eleccion).2 = none →
       (ejecutar_ciclo s rand eleccion).proceso_actual = none ∧
       (ejecutar_ciclo s rand eleccion).tiempo_actual = s.tiempo_actual + 1) := by
  refine ⟨?_, ?_, ?_⟩
  · intro s rand eleccion h
    unfold sortearProceso
    rw [h]
    simp
  · intro s rand eleccion hpool hsum
    unfold sortearProceso
    by_cases h1 : (elegibles s).isEmpty
    · simp [h1]
    · simp only [h1, Bool.false_eq_true, if_false, hpool, hsum]
      simp
  · intro s rand eleccion hp ha hdraw
    have hrun : ejecutar_ciclo s rand eleccion =
        faseEjecucion (faseDespacho (faseEnvejecimiento (faseReloj s)) rand eleccion) := by
      unfold ejecutar_ciclo
      rw [hp]
      simp
    have haE : (faseEnvejecimiento (faseReloj s)).proceso_actual = none := by
      rw [(faseEnvejecimiento_proj _).1, (faseReloj_proj s).2.1, ha]
    have hdis : faseDespacho (faseEnvejecimiento (faseReloj s)) rand eleccion =
        despachar (prepararSorteo (faseEnvejecimiento (faseReloj s))) rand eleccion := by
      unfold faseDespacho
      rw [haE]
      simp
    have hdes := despachar_of_none hdraw
    have hfst := sortearProceso_fst (prepararSorteo (faseEnvejecimiento (faseReloj s))) rand eleccion
    have hpre := prepararSorteo_of_none haE
    have hactual : (faseDespacho (faseEnvejecimiento (faseReloj s)) rand eleccion).proceso_actual = none := by
      rw [hdis, hdes, hfst.2.1, hpre.1]
    constructor
    · rw [hrun, faseEjecucion_of_none hactual, hactual]
    · rw [hrun, faseEjecucion_of_none hactual, hdis, hdes, hfst.2.2.2.1, hpre.2.1,
          (faseEnvejecimiento_proj _).2.1, (faseReloj_proj s).2.2.1]

/-- C5 witness: a client-only queue yields no winner; a zero-ticket
direct queue yields no winner; the corresponding cycle leaves the CPU
idle while the clock advances. -/
theorem sorteo_sin_ganador_ciclo_inactivo_testigo :
    sortearProceso ejemploSinElegibles 1 0 = (ejemploSinElegibles, none) ∧
    sortearProceso ejemploCeroTickets 1 0 = (ejemploCeroTickets, none) ∧
    (ejecutar_ciclo ejemploCeroTickets 1 0).proceso_actual = none ∧
    (ejecutar_ciclo ejemploCeroTickets 1 0).tiempo_actual = ejemploCeroTickets.tiempo_actual + 1 := by
  refine ⟨sorteo_sin_ganador_ciclo_inactivo.1 _ 1 0 (by decide),
          sorteo_sin_ganador_ciclo_inactivo.2.1 _ 1 0 (by decide) (by decide),
          (sorteo_sin_ganador_ciclo_inactivo.2.2 _ 1 0 (by decide) (by decide) (by decide)).1,
          (sorteo_sin_ganador_ciclo_inactivo.2.2 _ 1 0 (by decide) (by decide) (by decide)).2⟩

/-- C6: in global-pool mode with a non-zero pool, at least one eligible
process and an eligible ticket sum of 0, the draw does not fail and no
proportional division is attempted: the winner is exactly the eligible
process picked by the uniform-choice oracle. -/
theorem pool_suma_cero_eleccion_uniforme (s : SimuladorLoteria) (rand pool : Int) (eleccion : Nat)
    (hpool : s.pool_tickets_global = some pool) (hpz : pool ≠ 0)
    (hsum : sumTickets (elegibles s) = 0)
    (hlt : eleccion < (elegibles s).length) :
    (sortearProceso s rand eleccion).2 = some ((elegibles s).get ⟨eleccion, hlt⟩) := by
  have hne : elegibles s ≠ [] := by
    intro hc
    rw [hc] at hlt
    simp at hlt
  have hem : (elegibles s).isEmpty = false := by
    rw [List.isEmpty_eq_false]
    exact hne
  have hpzb : (pool == 0) = false := by
    simpa using hpz
  have hsb : (sumTickets (elegibles s) == 0) = true := by
    simpa using hsum
  unfold sortearProceso
  simp only [hem, Bool.false_eq_true, if_false, hpool, hpzb, hsb, if_pos rfl]
  rw [Nat.mod_eq_of_lt hlt, List.getD_eq_getElem _ _ hlt]
  rfl

/-- C6 witness: with pool 30, two eligible zero-ticket processes and
choice index 1, the second eligible process wins. -/
theorem pool_suma_cero_eleccion_uniforme_testigo :
    (sortearProceso ejemploPoolCero 7 1).2 =
      some ((elegibles ejemploPoolCero).get ⟨1, by decide⟩) :=
  pool_suma_cero_eleccion_uniforme ejemploPoolCero 7 30 1 rfl (by decide) (by decide) (by decide)

/-- A terminated process record for evaluating the statistics
aggregator. -/
def terminadoUno : Proceso :=
  { mkProceso 1 10 0 3 2 0 with
      estado := Estado.TERMINADO
      tiempo_restante := 0
      tiempo_retorno := 3
      tiempo_espera := 1
      tiempo_inicio_ejecucion := 1 }

/-- A second terminated process record. -/
def terminadoDos : Proceso :=
  { mkProceso 2 10 0 4 1 0 with
      estado := Estado.TERMINADO
      tiempo_restante := 0
      tiempo_retorno := 7
      tiempo_espera := 3
      tiempo_inicio_ejecucion := 4 }

/-- Example of a simulator with two terminated processes, for evaluating
the statistics aggregator. -/
def ejemploTerminados : SimuladorLoteria :=
  { mkSimulador 2 true none with
      tiempo_actual := 7
      procesos_terminados := [terminadoUno, terminadoDos] }

/-- C8: the statistics aggregator returns the no-data indicator exactly
when no process has terminated, and otherwise the arithmetic means of
wait, turnaround and response time (first dispatch minus arrival) over
the terminated list, together with that list; it is a pure function of
the state, so it mutates nothing. -/
theorem estadisticas_promedios (s : SimuladorLoteria) :
    (obtener_estadisticas s = none ↔ s.procesos_terminados = []) ∧
    (∀ e, obtener_estadisticas s = some e →
      e.promedio_espera =
        (((s.procesos_terminados.map (fun p => (p.tiempo_espera : Int))).sum : Int) : Rat) /
          (s.procesos_terminados.length : Rat) ∧
      e.promedio_retorno =
        (((s.procesos_terminados.map (fun p => p.tiempo_retorno)).sum : Int) : Rat) /
          (s.procesos_terminados.length : Rat) ∧
      e.promedio_respuesta =
        (((s.procesos_terminados.map (fun p => p.tiempo_inicio_ejecucion - p.tiempo_llegada)).sum : Int) : Rat) /
          (s.procesos_terminados.length : Rat) ∧
      e.procesos = s.procesos_terminados ∧
      e.cuenta_terminados = s.procesos_terminados.length ∧
      e.tiempo_total = s.tiempo_actual) := by
  constructor
  · unfold obtener_estadisticas
    by_cases h : s.procesos_terminados.isEmpty
    · simp [h, List.isEmpty_iff.mp h]
    · have : s.procesos_terminados ≠ [] := by
        intro hc
        rw [hc] at h
        simp at h
      simp [h, this]
  · intro e he
    unfold obtener_estadisticas at he
    by_cases h : s.procesos_terminados.isEmpty
    · simp [h] at he
    · simp only [h, Bool.false_eq_true, if_false, Option.some.injEq] at he
      subst he
      exact ⟨rfl, rfl, rfl, rfl, rfl, rfl⟩

/-- C8 witness: on a two-process terminated list the means evaluate to
wait 2, turnaround 5, response 5/2. -/
theorem estadisticas_promedios_testigo :
    obtener_estadisticas ejemploTerminados ≠ none ∧
    ∀ e, obtener_estadisticas ejemploTerminados = some e →
      e.promedio_espera = 2 ∧ e.promedio_retorno = 5 ∧ e.promedio_respuesta = 5 / 2 := by
  constructor
  · intro hc
    have := (estadisticas_promedios ejemploTerminados).1.mp hc
    simp [ejemploTerminados, mkSimulador] at this
  · intro e he
    rcases (estadisticas_promedios ejemploTerminados).2 e he with ⟨h1, h2, h3, _⟩
    refine ⟨?_, ?_, ?_⟩
    · rw [h1]
      norm_num [ejemploTerminados, terminadoUno, terminadoDos, mkProceso, mkSimulador]
    · rw [h2]
      norm_num [ejemploTerminados, terminadoUno, terminadoDos, mkProceso, mkSimulador]
    · rw [h3]
      norm_num [ejemploTerminados, terminadoUno, terminadoDos, mkProceso, mkSimulador]

/-- C9: process creation (the validation chain of the manual-creation
entry point) rejects, with a configuration error and without producing a
process, a non-positive CPU burst, a priority outside 1..5 and a
duplicate identifier; any process it does return carries exactly the
requested attributes, so nothing is silently coerced. -/
theorem validacion_creacion_proceso (pid tiempo_cpu prioridad servidor : Int)
    (procesos_creados : List Proceso) :
    (tiempo_cpu ≤ 0 →
      ∃ e, agregar_proceso_manual pid tiempo_cpu prioridad servidor procesos_creados = Except.error e) ∧
    ((prioridad < 1 ∨ 5 < prioridad) →
      ∃ e, agregar_proceso_manual pid tiempo_cpu prioridad servidor procesos_creados = Except.error e) ∧
    (pid ∈ idsDe procesos_creados →
      ∃ e, agregar_proceso_manual pid tiempo_cpu prioridad servidor procesos_creados = Except.error e) ∧
    (∀ p, agregar_proceso_manual pid tiempo_cpu prioridad servidor procesos_creados = Except.ok p →
      p.identificador = pid ∧ p.tiempo_cpu = tiempo_cpu ∧ p.tiempo_restante = tiempo_cpu ∧
      p.prioridad = prioridad ∧ p.proceso_servidor = servidor ∧
      0 < tiempo_cpu ∧ 1 ≤ prioridad ∧ prioridad ≤ 5 ∧ pid ∉ idsDe procesos_creados) := by
  have hdup : (procesos_creados.any (fun p => p.identificador == pid)) = true ↔
      pid ∈ idsDe procesos_creados := by
    unfold idsDe
    rw [List.any_eq_true]
    constructor
    · rintro ⟨q, hq, he⟩
      exact List.mem_map.mpr ⟨q, hq, by simpa using he⟩
    · intro h
      rcases List.mem_map.mp h with ⟨q, hq, he⟩
      exact ⟨q, hq, by simpa using he⟩
  refine ⟨?_, ?_, ?_, ?_⟩
  · intro h
    refine ⟨ErrorCreacion.cpuInvalido, ?_⟩
    unfold agregar_proceso_manual
    rw [if_pos h]
  · intro h
    unfold agregar_proceso_manual
    by_cases h1 : tiempo_cpu ≤ 0
    · exact ⟨ErrorCreacion.cpuInvalido, by rw [if_pos h1]⟩
    · exact ⟨ErrorCreacion.prioridadInvalida, by rw [if_neg h1, if_pos h]⟩
  · intro h
    unfold agregar_proceso_manual
    by_cases h1 : tiempo_cpu ≤ 0
    · exact ⟨ErrorCreacion.cpuInvalido, by rw [if_pos h1]⟩
    · by_cases h2 : prioridad < 1 ∨ 5 < prioridad
      · exact ⟨ErrorCreacion.prioridadInvalida, by rw [if_neg h1, if_pos h2]⟩
      · exact ⟨ErrorCreacion.idDuplicado, by rw [if_neg h1, if_neg h2, if_pos (hdup.mpr h)]⟩
  · intro p hp
    unfold agregar_proceso_manual at hp
    by_cases h1 : tiempo_cpu ≤ 0
    · rw [if_pos h1] at hp; cases hp
    · rw [if_neg h1] at hp
      by_cases h2 : prioridad < 1 ∨ 5 < prioridad
      · rw [if_pos h2] at hp; cases hp
      · rw [if_neg h2] at hp
        by_cases h3 : (procesos_creados.any (fun p => p.identificador == pid)) = true
        · rw [if_pos h3] at hp; cases hp
        · rw [if_neg h3] at hp
          by_cases h4 : (servidor != 0 && !(procesos_creados.any (fun p => p.identificador == servidor))) = true
          · rw [if_pos h4] at hp; cases hp
          · rw [if_neg h4] at hp
            cases hp
            refine ⟨rfl, rfl, rfl, rfl, rfl, by omega, by omega, by omega, ?_⟩
            intro hc
            exact h3 (hdup.mpr hc)

/-- C9 witness: burst 0 is rejected, priority 6 is rejected, a duplicate
identifier is rejected, and a valid request returns the uncoerced
process. -/
theorem validacion_creacion_proceso_testigo :
    (∃ e, agregar_proceso_manual 1 0 3 0 [] = Except.error e) ∧
    (∃ e, agregar_proceso_manual 1 5 6 0 [] = Except.error e) ∧
    (∃ e, agregar_proceso_manual 1 5 3 0 [mkProceso 1 10 0 3 1 0] = Except.error e) ∧
    ∀ p, agregar_proceso_manual 2 5 3 0 [mkProceso 1 10 0 3 1 0] = Except.ok p →
      p.identificador = 2 ∧ p.tiempo_cpu = 5 ∧ p.tiempo_restante = 5 ∧ p.prioridad = 3 ∧
      p.proceso_servidor = 0 ∧ (0 : Int) < 5 ∧ (1 : Int) ≤ 3 ∧ (3 : Int) ≤ 5 ∧
      (2 : Int) ∉ idsDe [mkProceso 1 10 0 3 1 0] := by
  refine ⟨(validacion_creacion_proceso 1 0 3 0 []).1 (by decide),
          (validacion_creacion_proceso 1 5 6 0 []).2.1 (by decide),
          (validacion_creacion_proceso 1 5 3 0 [mkProceso 1 10 0 3 1 0]).2.2.1 (by decide),
          fun p hp => (validacion_creacion_proceso 2 5 3 0 [mkProceso 1 10 0 3 1 0]).2.2.2 p hp⟩

theorem expulsarPorQuantum_proj (s : SimuladorLoteria) :
    (expulsarPorQuantum s).tiempo_actual = s.tiempo_actual ∧
    (expulsarPorQuantum s).procesos_terminados = s.procesos_terminados ∧
    (expulsarPorQuantum s).pausado = s.pausado ∧
    (expulsarPorQuantum s).usar_tickets_manual = s.usar_tickets_manual ∧
    (expulsarPorQuantum s).pool_tickets_global = s.pool_tickets_global ∧
    (expulsarPorQuantum s).servidores_ejecutados = s.servidores_ejecutados ∧
    (expulsarPorQuantum s).quantum = s.quantum ∧
    (expulsarPorQuantum s).tiempo_quantum_restante = s.tiempo_quantum_restante := by
  unfold expulsarPorQuantum
  cases s.proceso_actual with
  | none => exact ⟨rfl, rfl, rfl, rfl, rfl, rfl, rfl, rfl⟩
  | some a =>
      by_cases h : 0 < a.tiempo_restante
      · simp [h]
      · simp [h]

theorem aplicarTicketsAuto_proj (s : SimuladorLoteria) :
    (aplicarTicketsAuto s).tiempo_actual = s.tiempo_actual ∧
    (aplicarTicketsAuto s).proceso_actual = s.proceso_actual ∧
    (aplicarTicketsAuto s).procesos_terminados = s.procesos_terminados ∧
    (aplicarTicketsAuto s).pausado = s.pausado ∧
    (aplicarTicketsAuto s).usar_tickets_manual = s.usar_tickets_manual ∧
    (aplicarTicketsAuto s).pool_tickets_global = s.pool_tickets_global ∧
    (aplicarTicketsAuto s).servidores_ejecutados = s.servidores_ejecutados ∧
    (aplicarTicketsAuto s).quantum = s.quantum ∧
    (aplicarTicketsAuto s).tiempo_quantum_restante = s.tiempo_quantum_restante := by
  unfold aplicarTicketsAuto
  by_cases h : s.usar_tickets_manual
  · simp [h]
  · simp [h]

/-- The automatic formula only reads priority and wait time, so
overwriting the current ticket count leaves its value unchanged. -/
theorem ticketsAutomaticos_update (p : Proceso) (x : Int) :
    ticketsAutomaticos { p with num_tickets := x } = ticketsAutomaticos p := rfl

/-- Every member of an automatically reassigned queue satisfies the
formula. -/
theorem asignar_tickets_mem {l : List Proceso} {q : Proceso}
    (h : q ∈ asignar_tickets l) : q.num_tickets = ticketsAutomaticos q := by
  rcases List.mem_map.mp h with ⟨p, _, hpq⟩
  subst hpq
  rfl

/-- C3: in automatic mode the ticket assignment overwrites, in place,
every ready process's current ticket count to priority * 10 +
wait / 5, leaving every other field (in particular the original ticket
count) untouched; it runs on every admission and, inside the cycle, on
the pre-draw state that the dispatch hands to the lottery. -/
theorem tickets_automaticos_formula :
    (∀ l : List Proceso, (asignar_tickets l).length = l.length) ∧
    (∀ (l : List Proceso) (i : Nat) (h1 : i < l.length) (h2 : i < (asignar_tickets l).length),
       (asignar_tickets l).get ⟨i, h2⟩ =
         { l.get ⟨i, h1⟩ with num_tickets := ticketsAutomaticos (l.get ⟨i, h1⟩) }) ∧
    (∀ (s : SimuladorLoteria) (p : Proceso), s.usar_tickets_manual = false →
       ∀ q ∈ (agregar_proceso s p).cola_listos, q.num_tickets = ticketsAutomaticos q) ∧
    (∀ s : SimuladorLoteria, s.usar_tickets_manual = false →
       ∀ q ∈ (prepararSorteo s).cola_listos, q.num_tickets = ticketsAutomaticos q) ∧
    (∀ (s : SimuladorLoteria) (rand : Int) (eleccion : Nat), s.pausado = false →
       ejecutar_ciclo s rand eleccion =
         faseEjecucion (faseDespacho (faseEnvejecimiento (faseReloj s)) rand eleccion)) ∧
    (∀ (s : SimuladorLoteria) (rand : Int) (eleccion : Nat),
       (s.proceso_actual.isNone || s.tiempo_quantum_restante == 0) = true →
       faseDespacho s rand eleccion = despachar (prepararSorteo s) rand eleccion) := by
  refine ⟨?_, ?_, ?_, ?_, ?_, ?_⟩
  · intro l
    simp [asignar_tickets]
  · intro l i h1 h2
    simp [asignar_tickets, List.getElem_map]
  · intro s p hm q hq
    unfold agregar_proceso aplicarTicketsAuto at hq
    simp only [hm, Bool.false_eq_true, if_false] at hq
    exact asignar_tickets_mem hq
  · intro s hm q hq
    unfold prepararSorteo aplicarTicketsAuto at hq
    rw [(expulsarPorQuantum_proj s).2.2.2.1, hm] at hq
    simp only [Bool.false_eq_true, if_false] at hq
    exact asignar_tickets_mem hq
  · intro s rand eleccion hp
    unfold ejecutar_ciclo
    rw [hp]
    simp
  · intro s rand eleccion hc
    unfold faseDespacho
    rw [hc]
    simp

/-- Process with accumulated wait, for evaluating the automatic ticket
formula. -/
def ejemploEspera : Proceso :=
  { mkProceso 1 5 0 3 2 0 with tiempo_espera := 7 }

/-- Automatic-mode simulator used for the C3 witness. -/
def ejemploAuto : SimuladorLoteria :=
  agregar_proceso (mkSimulador 2 false none) (mkProceso 1 0 0 3 1 0)

/-- C3 witness: reassignment on a concrete singleton queue produces
priority * 10 + wait / 5 = 21 and leaves the original count at 5; a
concrete automatic admission satisfies the formula queue-wide; so does a
concrete pre-draw state; and a concrete non-paused cycle routes through
the pre-draw reassignment. -/
theorem tickets_automaticos_formula_testigo :
    (asignar_tickets [ejemploEspera]).length = [ejemploEspera].length ∧
    (asignar_tickets [ejemploEspera]).get ⟨0, by decide⟩ =
      { ejemploEspera with num_tickets := ticketsAutomaticos ejemploEspera } ∧
    (∀ q ∈ (agregar_proceso ejemploAuto (mkProceso 2 0 0 4 3 0)).cola_listos,
       q.num_tickets = ticketsAutomaticos q) ∧
    (∀ q ∈ (prepararSorteo ejemploAuto).cola_listos, q.num_tickets = ticketsAutomaticos q) ∧
    ejecutar_ciclo ejemploAuto 1 0 =
      faseEjecucion (faseDespacho (faseEnvejecimiento (faseReloj ejemploAuto)) 1 0) := by
  refine ⟨tickets_automaticos_formula.1 [ejemploEspera],
          tickets_automaticos_formula.2.1 [ejemploEspera] 0 (by decide) (by decide),
          tickets_automaticos_formula.2.2.1 ejemploAuto (mkProceso 2 0 0 4 3 0) (by decide),
          tickets_automaticos_formula.2.2.2.1 ejemploAuto (by decide),
          tickets_automaticos_formula.2.2.2.2.1 ejemploAuto 1 0 (by decide)⟩

/-- C1 (amended): in direct mode, for a drawn ticket inside the valid
range, the winner is the first eligible process, in ready-queue order,
whose cumulative ticket count reaches the drawn ticket, so that the
process at position i owns exactly the range
(sum of tickets before i, sum before i + its tickets]. -/
theorem sorteo_directo_rango_acumulado (s : SimuladorLoteria) (rand : Int) (eleccion : Nat)
    (hpool : s.pool_tickets_global = none)
    (h1 : 1 ≤ rand) (h2 : rand ≤ sumTickets (elegibles s)) :
    ∃ i, ∃ h : i < (elegibles s).length,
      (sortearProceso s rand eleccion).2 = some ((elegibles s).get ⟨i, h⟩) ∧
      sumTickets ((elegibles s).take i) < rand ∧
      rand ≤ sumTickets ((elegibles s).take i) + ((elegibles s).get ⟨i, h⟩).num_tickets ∧
      ∀ j, j < i → sumTickets ((elegibles s).take (j + 1)) < rand := by
  have hne : elegibles s ≠ [] := by
    intro hc
    rw [hc] at h2
    rw [sumTickets_nil] at h2
    omega
  have hem : (elegibles s).isEmpty = false := by
    rw [List.isEmpty_eq_false]
    exact hne
  have hsb : (sumTickets (elegibles s) == 0) = false := by
    simp only [beq_eq_false_iff_ne, ne_eq]
    omega
  have hwin : (sortearProceso s rand eleccion).2 = ganadorDirecto rand 0 (elegibles s) := by
    unfold sortearProceso
    simp only [hem, Bool.false_eq_true, if_false, hpool, hsb]
  rcases ganadorDirecto_spec (elegibles s) rand 0 (by omega) (by omega) with
    ⟨i, hi, hg, hlow, hhigh, hfirst⟩
  refine ⟨i, hi, ?_, ?_, ?_, ?_⟩
  · rw [hwin, hg]
  · omega
  · omega
  · intro j hj
    have := hfirst j hj
    omega

/-- Manual-mode two-process run in which process 1 wins the first draw
and is preempted on quantum expiry, leaving the ready queue in the order
[2, 1]. -/
def ejemploReordenado : SimuladorLoteria :=
  ejecutar_ciclo
    (ejecutar_ciclo
      (agregar_proceso (agregar_proceso (mkSimulador 2 true none) (mkProceso 1 10 0 5 1 0))
        (mkProceso 2 10 0 5 1 0))
      1 0)
    1 0

/-- The pre-draw state of the third cycle of that run. -/
def ejemploPreSorteo : SimuladorLoteria :=
  prepararSorteo (faseEnvejecimiento (faseReloj ejemploReordenado))

/-- C1 counterexample: after the preemption the eligible queue order is
[2, 1]; with drawn ticket 5 the source draw selects process 2, while the
claimed ascending-identifier accumulation selects process 1, so the two
disagree on a reachable draw. -/
theorem sorteo_orden_identificador_contraejemplo :
    idsDe (elegibles ejemploPreSorteo) = [2, 1] ∧
    ((sortearProceso ejemploPreSorteo 5 0).2).map (fun p => p.identificador) = some 2 ∧
    (sortearPorIdentificador ejemploPreSorteo 5).map (fun p => p.identificador) = some 1 ∧
    (sortearProceso ejemploPreSorteo 5 0).2 ≠ sortearPorIdentificador ejemploPreSorteo 5 := by
  refine ⟨by decide, by decide, by decide, by decide⟩

/-- C1 witness: the amended range property instantiated on the reordered
queue with drawn ticket 5. -/
theorem sorteo_directo_rango_acumulado_testigo :
    ∃ i, ∃ h : i < (elegibles ejemploPreSorteo).length,
      (sortearProceso ejemploPreSorteo 5 0).2 = some ((elegibles ejemploPreSorteo).get ⟨i, h⟩) ∧
      sumTickets ((elegibles ejemploPreSorteo).take i) < 5 ∧
      5 ≤ sumTickets ((elegibles ejemploPreSorteo).take i) +
            ((elegibles ejemploPreSorteo).get ⟨i, h⟩).num_tickets ∧
      ∀ j, j < i → sumTickets ((elegibles ejemploPreSorteo).take (j + 1)) < 5 :=
  sorteo_directo_rango_acumulado ejemploPreSorteo 5 0 (by decide) (by decide) (by decide)

theorem despachar_tiempo (s : SimuladorLoteria) (rand : Int) (eleccion : Nat) :
    (despachar s rand eleccion).tiempo_actual = s.tiempo_actual := by
  unfold despachar
  cases h : (sortearProceso s rand eleccion).2 with
  | none => exact (sortearProceso_fst s rand eleccion).2.2.2.1
  | some g =>
      show (instalarGanador (sortearProceso s rand eleccion).1 _).tiempo_actual = s.tiempo_actual
      unfold instalarGanador
      exact (sortearProceso_fst s rand eleccion).2.2.2.1

theorem faseDespacho_tiempo (s : SimuladorLoteria) (rand : Int) (eleccion : Nat) :
    (faseDespacho s rand eleccion).tiempo_actual = s.tiempo_actual := by
  unfold faseDespacho
  by_cases h : (s.proceso_actual.isNone || s.tiempo_quantum_restante == 0) = true
  · rw [if_pos h, despachar_tiempo]
    unfold prepararSorteo
    rw [(aplicarTicketsAuto_proj _).1, (expulsarPorQuantum_proj _).1]
  · rw [if_neg h]

theorem agregarServidor_mem (l : List Int) (i : Int) : i ∈ agregarServidor l i := by
  unfold agregarServidor
  by_cases h : l.contains i
  · rw [if_pos h]
    simpa using h
  · rw [if_neg h]
    simp

/-- C7: on the cycle in which the running process's remaining time hits
0, it is marked TERMINATED with turnaround clock - arrival, appended at
the end of the terminated list, its identifier recorded in the
completed-server set, the running slot cleared, and the quantum counter
zeroed. -/
theorem terminacion_al_agotar_rafaga (s : SimuladorLoteria) (rand : Int) (eleccion : Nat)
    (a : Proceso) (hp : s.pausado = false)
    (ha : (faseDespacho (faseEnvejecimiento (faseReloj s)) rand eleccion).proceso_actual = some a)
    (hr : a.tiempo_restante = 1) :
    ejecutar_ciclo s rand eleccion =
      faseEjecucion (faseDespacho (faseEnvejecimiento (faseReloj s)) rand eleccion) ∧
    (ejecutar_ciclo s rand eleccion).proceso_actual = none ∧
    (ejecutar_ciclo s rand eleccion).tiempo_quantum_restante = 0 ∧
    (ejecutar_ciclo s rand eleccion).procesos_terminados =
      (faseDespacho (faseEnvejecimiento (faseReloj s)) rand eleccion).procesos_terminados ++
        [{ a with tiempo_restante := 0, estado := Estado.TERMINADO,
                  tiempo_retorno := ((s.tiempo_actual + 1 : Nat) : Int) - a.tiempo_llegada }] ∧
    (ejecutar_ciclo s rand eleccion).servidores_ejecutados =
      agregarServidor
        (faseDespacho (faseEnvejecimiento (faseReloj s)) rand eleccion).servidores_ejecutados
        a.identificador ∧
    a.identificador ∈ (ejecutar_ciclo s rand eleccion).servidores_ejecutados := by
  have htiempo :
      (faseDespacho (faseEnvejecimiento (faseReloj s)) rand eleccion).tiempo_actual =
        s.tiempo_actual + 1 := by
    rw [faseDespacho_tiempo, (faseEnvejecimiento_proj _).2.1, (faseReloj_proj s).2.2.1]
  have hrun : ejecutar_ciclo s rand eleccion =
      faseEjecucion (faseDespacho (faseEnvejecimiento (faseReloj s)) rand eleccion) := by
    unfold ejecutar_ciclo
    rw [hp]
    simp
  have hexec : faseEjecucion (faseDespacho (faseEnvejecimiento (faseReloj s)) rand eleccion) =
      { (faseDespacho (faseEnvejecimiento (faseReloj s)) rand eleccion) with
          procesos_terminados :=
            (faseDespacho (faseEnvejecimiento (faseReloj s)) rand eleccion).procesos_terminados ++
              [{ a with tiempo_restante := 0, estado := Estado.TERMINADO,
                        tiempo_retorno := ((s.tiempo_actual + 1 : Nat) : Int) - a.tiempo_llegada }],
          servidores_ejecutados :=
            agregarServidor
              (faseDespacho (faseEnvejecimiento (faseReloj s)) rand eleccion).servidores_ejecutados
              a.identificador,
          proceso_actual := none,
          tiempo_quantum_restante := 0 } := by
    unfold faseEjecucion
    rw [ha]
    dsimp only
    rw [hr, htiempo]
    norm_num
  refine ⟨hrun, ?_, ?_, ?_, ?_, ?_⟩
  · rw [hrun, hexec]
  · rw [hrun, hexec]
  · rw [hrun, hexec]
  · rw [hrun, hexec]
  · rw [hrun, hexec]
    exact agregarServidor_mem _ _

/-- Manual-mode simulator with a single one-cycle process, about to
terminate on its first cycle. -/
def ejemploUno : SimuladorLoteria :=
  agregar_proceso (mkSimulador 2 true none) (mkProceso 1 10 0 1 1 0)

/-- The process record that ejemploUno runs on its first cycle. -/
def ejemploUnoActual : Proceso :=
  { mkProceso 1 10 0 1 1 0 with
      estado := Estado.EJECUTANDO
      tiempo_espera := 1
      tiempo_inicio_ejecucion := 1 }

/-- C7 witness: the one-cycle process terminates on the first cycle with
turnaround 1, lands in the terminated list and the completed-server set,
and frees the CPU and the quantum counter. -/
theorem terminacion_al_agotar_rafaga_testigo :
    ejecutar_ciclo ejemploUno 1 0 =
      faseEjecucion (faseDespacho (faseEnvejecimiento (faseReloj ejemploUno)) 1 0) ∧
    (ejecutar_ciclo ejemploUno 1 0).proceso_actual = none ∧
    (ejecutar_ciclo ejemploUno 1 0).tiempo_quantum_restante = 0 ∧
    (ejecutar_ciclo ejemploUno 1 0).procesos_terminados =
      (faseDespacho (faseEnvejecimiento (faseReloj ejemploUno)) 1 0).procesos_terminados ++
        [{ ejemploUnoActual with tiempo_restante := 0, estado := Estado.TERMINADO,
                                 tiempo_retorno := ((ejemploUno.tiempo_actual + 1 : Nat) : Int) -
                                   ejemploUnoActual.tiempo_llegada }] ∧
    (ejecutar_ciclo ejemploUno 1 0).servidores_ejecutados =
      agregarServidor
        (faseDespacho (faseEnvejecimiento (faseReloj ejemploUno)) 1 0).servidores_ejecutados
        ejemploUnoActual.identificador ∧
    ejemploUnoActual.identificador ∈ (ejecutar_ciclo ejemploUno 1 0).servidores_ejecutados :=
  terminacion_al_agotar_rafaga ejemploUno 1 0 ejemploUnoActual (by decide) (by decide) (by decide)

section PrestamoLemmas

/-- The admission-time transfer: the server entry gains the client's
whole ticket count on both counters, the client entry drops to zero
tickets with its lent counter recording the amount, every other entry
and every non-queue component of the state is untouched. -/
theorem prestar_spec (s : SimuladorLoteria) (cid sid : Int) (cli srv : Proceso)
    (hcli : findById s.cola_listos cid = some cli)
    (hsrv : findById s.cola_listos sid = some srv)
    (hne : cid ≠ sid) :
    (prestar_tickets s cid sid).2 = true ∧
    findById ((prestar_tickets s cid sid).1).cola_listos sid =
      some { srv with tickets_prestados := srv.tickets_prestados + cli.num_tickets,
                      num_tickets := srv.num_tickets + cli.num_tickets } ∧
    findById ((prestar_tickets s cid sid).1).cola_listos cid =
      some { cli with tickets_prestados := cli.num_tickets, num_tickets := 0 } ∧
    (∀ j, j ≠ cid → j ≠ sid →
      findById ((prestar_tickets s cid sid).1).cola_listos j = findById s.cola_listos j) ∧
    idsDe ((prestar_tickets s cid sid).1).cola_listos = idsDe s.cola_listos ∧
    ((prestar_tickets s cid sid).1).proceso_actual = s.proceso_actual ∧
    ((prestar_tickets s cid sid).1).pausado = s.pausado ∧
    ((prestar_tickets s cid sid).1).usar_tickets_manual = s.usar_tickets_manual ∧
    ((prestar_tickets s cid sid).1).pool_tickets_global = s.pool_tickets_global ∧
    ((prestar_tickets s cid sid).1).proceso_actual = s.proceso_actual := by
  have hcid : cli.identificador = cid := (mem_of_findById hcli).2
  have hsid : srv.identificador = sid := (mem_of_findById hsrv).2
  have hred : prestar_tickets s cid sid =
      ({ s with cola_listos := s.cola_listos.map (fun p =>
            if p.identificador == sid then
              { p with tickets_prestados := p.tickets_prestados + cli.num_tickets,
                       num_tickets := p.num_tickets + cli.num_tickets }
            else if p.identificador == cid then
              { p with tickets_prestados := cli.num_tickets, num_tickets := 0 }
            else p) }, true) := by
    unfold prestar_tickets
    rw [hsrv, hcli]
  have hf : ∀ p : Proceso,
      ((fun p : Proceso =>
        if p.identificador == sid then
          { p with tickets_prestados := p.tickets_prestados + cli.num_tickets,
                   num_tickets := p.num_tickets + cli.num_tickets }
        else if p.identificador == cid then
          { p with tickets_prestados := cli.num_tickets, num_tickets := 0 }
        else p) p).identificador = p.identificador := by
    intro p
    by_cases h1 : (p.identificador == sid) = true
    · simp [h1]
    · by_cases h2 : (p.identificador == cid) = true
      · simp [h1, h2]
      · simp [h1, h2]
  rw [hred]
  refine ⟨rfl, ?_, ?_, ?_, ?_, rfl, rfl, rfl, rfl, rfl⟩
  · rw [findById_map _ _ hf, hsrv]
    simp only [Option.map_some']
    rw [if_pos (by simpa using hsid)]
  · rw [findById_map _ _ hf, hcli]
    simp only [Option.map_some']
    rw [if_neg (by simpa using fun h => hne (hcid ▸ h)), if_pos (by simpa using hcid)]
  · intro j hjc hjs
    rw [findById_map _ _ hf]
    cases hj : findById s.cola_listos j with
    | none => rfl
    | some q =>
        have hq : q.identificador = j := (mem_of_findById hj).2
        simp only [Option.map_some']
        rw [if_neg (by simpa using fun h => hjs (hq ▸ h)),
            if_neg (by simpa using fun h => hjc (hq ▸ h))]
  · exact idsDe_map _ _ hf

end PrestamoLemmas

section RestitucionLemmas

/-- The aging update applied to a queued process distinct from the
running one. -/
def envejecer (p : Proceso) : Proceso :=
  { p with tiempo_espera := p.tiempo_espera + 1 }

theorem inicioEjecucion_campos (q : Proceso) (t : Nat) :
    (inicioEjecucion q t).identificador = q.identificador ∧
    (inicioEjecucion q t).num_tickets = q.num_tickets ∧
    (inicioEjecucion q t).tickets_prestados = q.tickets_prestados := by
  unfold inicioEjecucion
  split
  · exact ⟨rfl, rfl, rfl⟩
  · exact ⟨rfl, rfl, rfl⟩

/-- With no running process, the aging phase is a plain map of the aging
update over the ready queue. -/
theorem faseEnvejecimiento_of_none {s : SimuladorLoteria} (h : s.proceso_actual = none) :
    (faseEnvejecimiento (faseReloj s)).cola_listos = s.cola_listos.map envejecer := by
  unfold faseEnvejecimiento faseReloj envejecer
  dsimp only
  rw [h]

/-- Restitution before execution: in manual ticket mode, starting from an
idle CPU, on the cycle whose draw selects the server every lent amount of
its (unique) lending client flows back before the server executes: the
dispatched server's counters both drop by the lent amount and the client
entry regains it, with its lent counter reset to zero. -/
theorem restitucion_en_despacho (s : SimuladorLoteria) (cid sid : Int) (cli srv : Proceso)
    (rand : Int) (eleccion : Nat)
    (hm : s.usar_tickets_manual = true)
    (hp : s.pausado = false)
    (han : s.proceso_actual = none)
    (hcli : findById s.cola_listos cid = some cli)
    (hsrv : findById s.cola_listos sid = some srv)
    (hne : cid ≠ sid)
    (hcs : cli.proceso_servidor = sid)
    (hpos : 0 < cli.tickets_prestados)
    (hnd : (idsDe s.cola_listos).Nodup)
    (honly : ∀ p ∈ s.cola_listos, p.identificador ≠ cid →
      ¬(p.proceso_servidor = sid ∧ 0 < p.tickets_prestados))
    (hwin : ((sortearProceso (prepararSorteo (faseEnvejecimiento (faseReloj s))) rand eleccion).2).map
      (fun g => g.identificador) = some sid) :
    ejecutar_ciclo s rand eleccion =
      faseEjecucion (faseDespacho (faseEnvejecimiento (faseReloj s)) rand eleccion) ∧
    (∃ srv2 : Proceso,
      (faseDespacho (faseEnvejecimiento (faseReloj s)) rand eleccion).proceso_actual = some srv2 ∧
      srv2.identificador = sid ∧
      srv2.num_tickets = srv.num_tickets - cli.tickets_prestados ∧
      srv2.tickets_prestados = srv.tickets_prestados - cli.tickets_prestados) ∧
    (∃ cli2 : Proceso,
      findById ((faseDespacho (faseEnvejecimiento (faseReloj s)) rand eleccion)).cola_listos cid =
        some cli2 ∧
      cli2.identificador = cid ∧
      cli2.num_tickets = cli.num_tickets + cli.tickets_prestados ∧
      cli2.tickets_prestados = 0) := by
  have hEact : (faseEnvejecimiento (faseReloj s)).proceso_actual = none := by
    rw [(faseEnvejecimiento_proj _).1, (faseReloj_proj s).2.1, han]
  have hEman : (faseEnvejecimiento (faseReloj s)).usar_tickets_manual = true := by
    rw [(faseEnvejecimiento_proj _).2.2.2.2.1, (faseReloj_proj s).2.2.2.2.2.1, hm]
  have hE : (faseEnvejecimiento (faseReloj s)).cola_listos = s.cola_listos.map envejecer :=
    faseEnvejecimiento_of_none han
  have hidenv : ∀ p : Proceso, (envejecer p).identificador = p.identificador := fun _ => rfl
  have h1 : expulsarPorQuantum (faseEnvejecimiento (faseReloj s)) =
      faseEnvejecimiento (faseReloj s) := by
    unfold expulsarPorQuantum
    rw [hEact]
  have h2 : aplicarTicketsAuto (faseEnvejecimiento (faseReloj s)) =
      faseEnvejecimiento (faseReloj s) := by
    unfold aplicarTicketsAuto
    rw [hEman]
    simp
  have hsP : prepararSorteo (faseEnvejecimiento (faseReloj s)) =
      faseEnvejecimiento (faseReloj s) := by
    unfold prepararSorteo
    rw [h1, h2]
  rw [hsP] at hwin
  rcases Option.map_eq_some'.mp hwin with ⟨g, hg2, hgid⟩
  have hndE : (idsDe (faseEnvejecimiento (faseReloj s)).cola_listos).Nodup := by
    rw [hE, idsDe_map _ _ hidenv]
    exact hnd
  have hgmem : g ∈ (faseEnvejecimiento (faseReloj s)).cola_listos :=
    mem_of_mem_elegibles (sortear_ganador_mem hg2)
  have hfindg : findById (faseEnvejecimiento (faseReloj s)).cola_listos g.identificador = some g :=
    findById_eq_of_mem_nodup _ _ hgmem hndE
  have hfindsrv : findById (faseEnvejecimiento (faseReloj s)).cola_listos sid =
      some (envejecer srv) := by
    rw [hE, findById_map _ _ hidenv, hsrv]
    rfl
  have hcid : cli.identificador = cid := (mem_of_findById hcli).2
  have hgsrv : g = envejecer srv := by
    rw [hgid, hfindsrv] at hfindg
    exact ((Option.some.injEq _ _).mp hfindg).symm
  have hrun : ejecutar_ciclo s rand eleccion =
      faseEjecucion (faseDespacho (faseEnvejecimiento (faseReloj s)) rand eleccion) := by
    unfold ejecutar_ciclo
    rw [hp]
    simp
  have hcond : ((faseEnvejecimiento (faseReloj s)).proceso_actual.isNone ||
      (faseEnvejecimiento (faseReloj s)).tiempo_quantum_restante == 0) = true := by
    rw [hEact]
    simp
  have hsD : faseDespacho (faseEnvejecimiento (faseReloj s)) rand eleccion =
      despachar (faseEnvejecimiento (faseReloj s)) rand eleccion := by
    unfold faseDespacho
    rw [if_pos hcond, hsP]
  have hQcola : ((sortearProceso (faseEnvejecimiento (faseReloj s)) rand eleccion).1).cola_listos =
      (faseEnvejecimiento (faseReloj s)).cola_listos :=
    (sortearProceso_fst _ rand eleccion).1
  have hdesp : despachar (faseEnvejecimiento (faseReloj s)) rand eleccion =
      instalarGanador (sortearProceso (faseEnvejecimiento (faseReloj s)) rand eleccion).1
        (devolver_tickets
          (inicioEjecucion { g with estado := Estado.EJECUTANDO }
            ((sortearProceso (faseEnvejecimiento (faseReloj s)) rand eleccion).1).tiempo_actual)
          (removeById
            ((sortearProceso (faseEnvejecimiento (faseReloj s)) rand eleccion).1).cola_listos
            g.identificador)) := by
    unfold despachar
    rw [hg2]
  have hg3id :
      (inicioEjecucion { g with estado := Estado.EJECUTANDO }
        ((sortearProceso (faseEnvejecimiento (faseReloj s)) rand eleccion).1).tiempo_actual).identificador = sid := by
    rw [(inicioEjecucion_campos _ _).1]
    exact hgid
  have hg3num :
      (inicioEjecucion { g with estado := Estado.EJECUTANDO }
        ((sortearProceso (faseEnvejecimiento (faseReloj s)) rand eleccion).1).tiempo_actual).num_tickets = srv.num_tickets := by
    rw [(inicioEjecucion_campos _ _).2.1, hgsrv]
    rfl
  have hg3pre :
      (inicioEjecucion { g with estado := Estado.EJECUTANDO }
        ((sortearProceso (faseEnvejecimiento (faseReloj s)) rand eleccion).1).tiempo_actual).tickets_prestados = srv.tickets_prestados := by
    rw [(inicioEjecucion_campos _ _).2.2, hgsrv]
    rfl
  have hq3 : removeById ((sortearProceso (faseEnvejecimiento (faseReloj s)) rand eleccion).1).cola_listos g.identificador =
      removeById (s.cola_listos.map envejecer) sid := by
    rw [hQcola, hE, hgid]
  have hfindcli3 : findById (removeById (s.cola_listos.map envejecer) sid) cid =
      some (envejecer cli) := by
    rw [findById_removeById_ne _ _ _ hne, findById_map _ _ hidenv, hcli]
    rfl
  have hnd3 : (idsDe (removeById (s.cola_listos.map envejecer) sid)).Nodup := by
    refine ((idsDe_sublist_of_sublist (removeById_sublist _ _)).nodup) ?_
    rw [idsDe_map _ _ hidenv]
    exact hnd
  have htotal : totalPrestado sid (removeById (s.cola_listos.map envejecer) sid) =
      cli.tickets_prestados := by
    have hmem3 : envejecer cli ∈ removeById (s.cola_listos.map envejecer) sid :=
      (mem_of_findById hfindcli3).1
    have := totalPrestado_unico sid (removeById (s.cola_listos.map envejecer) sid)
      (envejecer cli) hmem3 hnd3 ⟨hcs, hpos⟩ ?_
    · exact this
    · intro p hp3 hpne
      have hpmem : p ∈ s.cola_listos.map envejecer :=
        (removeById_sublist _ _).mem hp3
      rcases List.mem_map.mp hpmem with ⟨p0, hp0, rfl⟩
      have : p0.identificador ≠ cid := by
        intro hc
        exact hpne (by simp [envejecer, hc, hcid])
      exact honly p0 hp0 this
  have hdevsnd := devolver_snd
    (inicioEjecucion { g with estado := Estado.EJECUTANDO }
      ((sortearProceso (faseEnvejecimiento (faseReloj s)) rand eleccion).1).tiempo_actual)
    (removeById (s.cola_listos.map envejecer) sid)
  have hact : (faseDespacho (faseEnvejecimiento (faseReloj s)) rand eleccion).proceso_actual =
      some ((devolver_tickets
        (inicioEjecucion { g with estado := Estado.EJECUTANDO }
          ((sortearProceso (faseEnvejecimiento (faseReloj s)) rand eleccion).1).tiempo_actual)
        (removeById (s.cola_listos.map envejecer) sid)).2) := by
    rw [hsD, hdesp, hq3]
    rfl
  have hcolafin : (faseDespacho (faseEnvejecimiento (faseReloj s)) rand eleccion).cola_listos =
      (devolver_tickets
        (inicioEjecucion { g with estado := Estado.EJECUTANDO }
          ((sortearProceso (faseEnvejecimiento (faseReloj s)) rand eleccion).1).tiempo_actual)
        (removeById (s.cola_listos.map envejecer) sid)).1 := by
    rw [hsD, hdesp, hq3]
    rfl
  have hFid : ∀ p : Proceso,
      ((fun p : Proceso =>
        if p.proceso_servidor ==
            (inicioEjecucion { g with estado := Estado.EJECUTANDO }
              ((sortearProceso (faseEnvejecimiento (faseReloj s)) rand eleccion).1).tiempo_actual).identificador &&
            decide (0 < p.tickets_prestados) then
          { p with num_tickets := p.num_tickets + p.tickets_prestados, tickets_prestados := 0 }
        else p) p).identificador = p.identificador := by
    intro p
    by_cases hc : (p.proceso_servidor ==
        (inicioEjecucion { g with estado := Estado.EJECUTANDO }
          ((sortearProceso (faseEnvejecimiento (faseReloj s)) rand eleccion).1).tiempo_actual).identificador &&
        decide (0 < p.tickets_prestados)) = true
    · simp [hc]
    · simp [hc]
  have hcnd : ((envejecer cli).proceso_servidor ==
      (inicioEjecucion { g with estado := Estado.EJECUTANDO }
        ((sortearProceso (faseEnvejecimiento (faseReloj s)) rand eleccion).1).tiempo_actual).identificador &&
      decide (0 < (envejecer cli).tickets_prestados)) = true := by
    rw [hg3id]
    simp only [Bool.and_eq_true, beq_iff_eq, decide_eq_true_eq]
    exact ⟨hcs, hpos⟩
  have hfindfin : findById
      ((devolver_tickets
        (inicioEjecucion { g with estado := Estado.EJECUTANDO }
          ((sortearProceso (faseEnvejecimiento (faseReloj s)) rand eleccion).1).tiempo_actual)
        (removeById (s.cola_listos.map envejecer) sid)).1) cid =
      some { envejecer cli with
               num_tickets := (envejecer cli).num_tickets + (envejecer cli).tickets_prestados,
               tickets_prestados := 0 } := by
    rw [devolver_fst, findById_map _ _ hFid, hfindcli3, Option.map_some']
    rw [if_pos hcnd]
  refine ⟨hrun, ?_, ?_⟩
  · refine ⟨_, hact, ?_, ?_, ?_⟩
    · rw [hdevsnd]
      exact hg3id
    · rw [hdevsnd]
      dsimp only
      rw [hg3num, hg3id, htotal]
    · rw [hdevsnd]
      dsimp only
      rw [hg3pre, hg3id, htotal]
  · refine ⟨{ envejecer cli with
               num_tickets := (envejecer cli).num_tickets + (envejecer cli).tickets_prestados,
               tickets_prestados := 0 }, ?_, ?_, ?_, ?_⟩
    · rw [hcolafin]
      exact hfindfin
    · exact hcid
    · rfl
    · rfl

end RestitucionLemmas

/-- C2 (amended): in manual ticket mode (no automatic recomputation
between transfer and restitution), the admission-time transfer moves the
client's whole ticket count to the queued server, recording it in both
lent counters and zeroing the client; and on the cycle whose draw selects
the server, before the server executes, the client gets the lent amount
back, restoring the client and the server exactly to their pre-transfer
ticket counts. -/
theorem transferencia_y_restitucion_modo_manual (s : SimuladorLoteria) (cid sid : Int)
    (cli srv : Proceso) (rand : Int) (eleccion : Nat)
    (hm : s.usar_tickets_manual = true)
    (hp : s.pausado = false)
    (han : s.proceso_actual = none)
    (hcli : findById s.cola_listos cid = some cli)
    (hsrv : findById s.cola_listos sid = some srv)
    (hne : cid ≠ sid)
    (hcs : cli.proceso_servidor = sid)
    (ht : 0 < cli.num_tickets)
    (hcp0 : cli.tickets_prestados = 0)
    (hsp0 : srv.tickets_prestados = 0)
    (hsnc : srv.proceso_servidor ≠ sid)
    (hnd : (idsDe s.cola_listos).Nodup)
    (honly : ∀ p ∈ s.cola_listos, p.identificador ≠ cid →
      ¬(p.proceso_servidor = sid ∧ 0 < p.tickets_prestados))
    (hwin : ((sortearProceso
        (prepararSorteo (faseEnvejecimiento (faseReloj ((prestar_tickets s cid sid).1))))
        rand eleccion).2).map (fun g => g.identificador) = some sid) :
    (prestar_tickets s cid sid).2 = true ∧
    findById ((prestar_tickets s cid sid).1).cola_listos sid =
      some { srv with tickets_prestados := srv.tickets_prestados + cli.num_tickets,
                      num_tickets := srv.num_tickets + cli.num_tickets } ∧
    findById ((prestar_tickets s cid sid).1).cola_listos cid =
      some { cli with tickets_prestados := cli.num_tickets, num_tickets := 0 } ∧
    ejecutar_ciclo ((prestar_tickets s cid sid).1) rand eleccion =
      faseEjecucion
        (faseDespacho (faseEnvejecimiento (faseReloj ((prestar_tickets s cid sid).1))) rand eleccion) ∧
    (∃ srv2 : Proceso,
      (faseDespacho (faseEnvejecimiento (faseReloj ((prestar_tickets s cid sid).1))) rand eleccion).proceso_actual =
        some srv2 ∧
      srv2.identificador = sid ∧ srv2.num_tickets = srv.num_tickets ∧
      srv2.tickets_prestados = 0) ∧
    (∃ cli2 : Proceso,
      findById ((faseDespacho (faseEnvejecimiento (faseReloj ((prestar_tickets s cid sid).1))) rand eleccion)).cola_listos cid =
        some cli2 ∧
      cli2.identificador = cid ∧ cli2.num_tickets = cli.num_tickets ∧
      cli2.tickets_prestados = 0) := by
  obtain ⟨Atrue, Asrv, Acli, Aother, Aids, Aactual, Apaus, Amanual, Apool, -⟩ :=
    prestar_spec s cid sid cli srv hcli hsrv hne
  have hcid : cli.identificador = cid := (mem_of_findById hcli).2
  have hsid : srv.identificador = sid := (mem_of_findById hsrv).2
  have hm2 : ((prestar_tickets s cid sid).1).usar_tickets_manual = true := by rw [Amanual, hm]
  have hp2 : ((prestar_tickets s cid sid).1).pausado = false := by rw [Apaus, hp]
  have han2 : ((prestar_tickets s cid sid).1).proceso_actual = none := by rw [Aactual, han]
  have hnd2 : (idsDe ((prestar_tickets s cid sid).1).cola_listos).Nodup := by rw [Aids]; exact hnd
  have honly2 : ∀ p ∈ ((prestar_tickets s cid sid).1).cola_listos, p.identificador ≠ cid →
      ¬(p.proceso_servidor = sid ∧ 0 < p.tickets_prestados) := by
    intro p hpmem hpne
    by_cases hps : p.identificador = sid
    · have hfp : findById ((prestar_tickets s cid sid).1).cola_listos sid = some p := by
        have hfp0 := findById_eq_of_mem_nodup _ p hpmem hnd2
        rwa [hps] at hfp0
      rw [Asrv] at hfp
      have hpe : p = { srv with tickets_prestados := srv.tickets_prestados + cli.num_tickets,
                                num_tickets := srv.num_tickets + cli.num_tickets } :=
        ((Option.some.injEq _ _).mp hfp).symm
      intro hcontra
      apply hsnc
      rw [← hcontra.1, hpe]
    · have hfp : findById ((prestar_tickets s cid sid).1).cola_listos p.identificador = some p :=
        findById_eq_of_mem_nodup _ _ hpmem hnd2
      rw [Aother p.identificador hpne hps] at hfp
      exact honly p (mem_of_findById hfp).1 hpne
  have hcli2 : findById ((prestar_tickets s cid sid).1).cola_listos cid =
      some { cli with tickets_prestados := cli.num_tickets, num_tickets := 0 } := Acli
  have hsrv2 : findById ((prestar_tickets s cid sid).1).cola_listos sid =
      some { srv with tickets_prestados := srv.tickets_prestados + cli.num_tickets,
                      num_tickets := srv.num_tickets + cli.num_tickets } := Asrv
  obtain ⟨hrun, ⟨srv2, hs1, hs2, hs3, hs4⟩, ⟨cli2, hc1, hc2, hc3, hc4⟩⟩ :=
    restitucion_en_despacho ((prestar_tickets s cid sid).1) cid sid
      { cli with tickets_prestados := cli.num_tickets, num_tickets := 0 }
      { srv with tickets_prestados := srv.tickets_prestados + cli.num_tickets,
                 num_tickets := srv.num_tickets + cli.num_tickets }
      rand eleccion hm2 hp2 han2 hcli2 hsrv2 hne hcs ht hnd2 honly2 hwin
  refine ⟨Atrue, Asrv, Acli, hrun, ⟨srv2, hs1, hs2, ?_, ?_⟩, ⟨cli2, hc1, hc2, ?_, hc4⟩⟩
  · rw [hs3]
    dsimp only
    omega
  · rw [hs4]
    dsimp only
    omega
  · rw [hc3]
    dsimp only
    omega

/-- Automatic-mode simulator with a server (id 1, priority 1) and a
client (id 2, priority 2) that depends on it, as admitted by the GUI. -/
def ejemploAutoCS : SimuladorLoteria :=
  agregar_proceso (agregar_proceso (mkSimulador 2 false none) (mkProceso 1 0 0 3 1 0))
    (mkProceso 2 0 0 3 2 1)

/-- The automatic-mode state right after the admission-time transfer. -/
def ejemploAutoPrestado : SimuladorLoteria :=
  (prestar_tickets ejemploAutoCS 2 1).1

/-- The automatic-mode state after the cycle that dispatches the
server. -/
def ejemploAutoTrasDespacho : SimuladorLoteria :=
  ejecutar_ciclo ejemploAutoPrestado 1 0

/-- C2 counterexample: in automatic mode the spec's own example (client
20 tickets, server 10) transfers to server 30 / client 0, but on the
server's next dispatch the pre-draw reassignment has already overwritten
the counts, so the restitution leaves the server at -10 tickets and the
client at 40 instead of the claimed exact restoration to 10 and 20. -/
theorem restitucion_exacta_contraejemplo :
    (findById ejemploAutoPrestado.cola_listos 1).map (fun p => p.num_tickets) = some 30 ∧
    (findById ejemploAutoPrestado.cola_listos 2).map (fun p => p.num_tickets) = some 0 ∧
    ejemploAutoTrasDespacho.proceso_actual.map (fun p => (p.identificador, p.num_tickets)) =
      some (1, -10) ∧
    (findById ejemploAutoTrasDespacho.cola_listos 2).map (fun p => p.num_tickets) = some 40 ∧
    ¬(ejemploAutoTrasDespacho.proceso_actual.map (fun p => p.num_tickets) = some 10 ∧
      (findById ejemploAutoTrasDespacho.cola_listos 2).map (fun p => p.num_tickets) = some 20) := by
  refine ⟨by decide, by decide, by decide, by decide, by decide⟩

/-- Manual-mode simulator realizing the spec example: server id 1 with 10
tickets, client id 2 with 20 tickets depending on it. -/
def ejemploManualCS : SimuladorLoteria :=
  agregar_proceso (agregar_proceso (mkSimulador 2 true none) (mkProceso 1 10 0 3 1 0))
    (mkProceso 2 20 0 3 2 1)

/-- The client record as admitted. -/
def ejemploClienteListo : Proceso :=
  { mkProceso 2 20 0 3 2 1 with estado := Estado.LISTO }

/-- The server record as admitted. -/
def ejemploServidorListo : Proceso :=
  { mkProceso 1 10 0 3 1 0 with estado := Estado.LISTO }

/-- C2 witness: on the spec's example (C = 20, S = 10) in manual mode,
admission yields S = 30, C = 0, and the dispatch of S restores S = 10 and
C = 20 before S executes. -/
theorem transferencia_y_restitucion_modo_manual_testigo :
    (prestar_tickets ejemploManualCS 2 1).2 = true ∧
    findById ((prestar_tickets ejemploManualCS 2 1).1).cola_listos 1 =
      some { ejemploServidorListo with
               tickets_prestados := ejemploServidorListo.tickets_prestados +
                 ejemploClienteListo.num_tickets,
               num_tickets := ejemploServidorListo.num_tickets + ejemploClienteListo.num_tickets } ∧
    findById ((prestar_tickets ejemploManualCS 2 1).1).cola_listos 2 =
      some { ejemploClienteListo with
               tickets_prestados := ejemploClienteListo.num_tickets, num_tickets := 0 } ∧
    ejecutar_ciclo ((prestar_tickets ejemploManualCS 2 1).1) 1 0 =
      faseEjecucion
        (faseDespacho (faseEnvejecimiento (faseReloj ((prestar_tickets ejemploManualCS 2 1).1))) 1 0) ∧
    (∃ srv2 : Proceso,
      (faseDespacho (faseEnvejecimiento (faseReloj ((prestar_tickets ejemploManualCS 2 1).1))) 1 0).proceso_actual =
        some srv2 ∧
      srv2.identificador = 1 ∧ srv2.num_tickets = ejemploServidorListo.num_tickets ∧
      srv2.tickets_prestados = 0) ∧
    (∃ cli2 : Proceso,
      findById ((faseDespacho (faseEnvejecimiento (faseReloj ((prestar_tickets ejemploManualCS 2 1).1))) 1 0)).cola_listos 2 =
        some cli2 ∧
      cli2.identificador = 2 ∧ cli2.num_tickets = ejemploClienteListo.num_tickets ∧
      cli2.tickets_prestados = 0) :=
  transferencia_y_restitucion_modo_manual ejemploManualCS 2 1
    ejemploClienteListo ejemploServidorListo 1 0
    (by decide) (by decide) (by decide) (by decide) (by decide) (by decide) (by decide)
    (by decide) (by decide) (by decide) (by decide) (by decide)
    (by intro p hp hne; revert hp hne; revert p; decide) (by decide)

section InvarianteLemmas

/-- The identifier of the running process, as a zero-or-one element
list. -/
def actualIds (s : SimuladorLoteria) : List Int :=
  match s.proceso_actual with
  | some a => [a.identificador]
  | none => []

/-- The structural state invariant: identifiers are unique inside the
ready queue and the terminated list, the two are disjoint, and the
running process (when present) appears in neither. -/
def Inv (s : SimuladorLoteria) : Prop :=
  (idsDe s.cola_listos).Nodup ∧
  (idsDe s.procesos_terminados).Nodup ∧
  (∀ i ∈ idsDe s.cola_listos, i ∉ idsDe s.procesos_terminados) ∧
  (∀ i ∈ actualIds s, i ∉ idsDe s.cola_listos ∧ i ∉ idsDe s.procesos_terminados)

instance (s : SimuladorLoteria) : Decidable (Inv s) := by
  unfold Inv
  infer_instance

theorem inv_de_campos {t t' : SimuladorLoteria}
    (hc : t'.cola_listos = t.cola_listos)
    (hterm : t'.procesos_terminados = t.procesos_terminados)
    (ha : t'.proceso_actual = t.proceso_actual)
    (h : Inv t) : Inv t' := by
  unfold Inv actualIds at *
  rw [hc, hterm, ha]
  exact h

theorem inv_de_ids {t t' : SimuladorLoteria}
    (hc : idsDe t'.cola_listos = idsDe t.cola_listos)
    (hterm : t'.procesos_terminados = t.procesos_terminados)
    (ha : t'.proceso_actual = t.proceso_actual)
    (h : Inv t) : Inv t' := by
  unfold Inv actualIds at *
  rw [hc, hterm, ha]
  exact h

theorem findById_none_of_not_mem {l : List Proceso} {j : Int}
    (h : j ∉ idsDe l) : findById l j = none := by
  induction l with
  | nil => rfl
  | cons p ps ih =>
      simp only [idsDe, List.map_cons, List.mem_cons, not_or] at h
      simp only [findById]
      rw [List.find?_cons_of_neg _ (by simpa using fun hc => h.1 hc.symm)]
      exact ih h.2

theorem idsDe_append (l r : List Proceso) : idsDe (l ++ r) = idsDe l ++ idsDe r := by
  simp [idsDe]

theorem idsDe_faseEnvejecimiento (s : SimuladorLoteria) :
    idsDe (faseEnvejecimiento s).cola_listos = idsDe s.cola_listos := by
  unfold faseEnvejecimiento
  dsimp only
  apply idsDe_map
  intro p
  cases s.proceso_actual with
  | none => rfl
  | some a =>
      by_cases h : (p.identificador == a.identificador) = true
      · simp [h]
      · simp [h]

theorem idsDe_devolver (srv : Proceso) (l : List Proceso) :
    idsDe (devolver_tickets srv l).1 = idsDe l := by
  rw [devolver_fst]
  apply idsDe_map
  intro p
  by_cases h : (p.proceso_servidor == srv.identificador && decide (0 < p.tickets_prestados)) = true
  · simp [h]
  · simp [h]

theorem idsDe_asignar (l : List Proceso) : idsDe (asignar_tickets l) = idsDe l := by
  apply idsDe_map
  intro p
  rfl

theorem devolver_snd_id (srv : Proceso) (l : List Proceso) :
    (devolver_tickets srv l).2.identificador = srv.identificador := by
  rw [devolver_snd]

theorem inv_faseReloj {s : SimuladorLoteria} (h : Inv s) : Inv (faseReloj s) :=
  inv_de_campos rfl rfl rfl h

theorem inv_faseEnvejecimiento {s : SimuladorLoteria} (h : Inv s) : Inv (faseEnvejecimiento s) :=
  inv_de_ids (idsDe_faseEnvejecimiento s) rfl rfl h

theorem inv_expulsarPorQuantum {s : SimuladorLoteria} (h : Inv s) : Inv (expulsarPorQuantum s) := by
  unfold expulsarPorQuantum
  cases hA : s.proceso_actual with
  | none => exact h
  | some a =>
      dsimp only
      by_cases hr : 0 < a.tiempo_restante
      · rw [if_pos hr]
        have h4 := h.2.2.2 a.identificador (by simp [actualIds, hA])
        refine ⟨?_, h.2.1, ?_, ?_⟩
        · show (idsDe (s.cola_listos ++ [{ a with estado := Estado.LISTO }])).Nodup
          rw [idsDe_append]
          rw [List.nodup_append]
          refine ⟨h.1, by simp [idsDe], ?_⟩
          intro i hi
          simp only [idsDe, List.map_cons, List.map_nil, List.mem_singleton]
          intro hc
          exact h4.1 (hc ▸ hi)
        · intro i hi
          rw [idsDe_append] at hi
          rcases List.mem_append.mp hi with hi | hi
          · exact h.2.2.1 i hi
          · simp only [idsDe, List.map_cons, List.map_nil, List.mem_singleton] at hi
            exact hi ▸ h4.2
        · intro i hi
          simp [actualIds] at hi
      · rw [if_neg hr]
        exact h

theorem inv_aplicarTicketsAuto {s : SimuladorLoteria} (h : Inv s) : Inv (aplicarTicketsAuto s) := by
  unfold aplicarTicketsAuto
  by_cases hm : s.usar_tickets_manual
  · rw [if_pos hm]
    exact h
  · rw [if_neg hm]
    exact inv_de_ids (idsDe_asignar _) rfl rfl h

theorem inv_prepararSorteo {s : SimuladorLoteria} (h : Inv s) : Inv (prepararSorteo s) :=
  inv_aplicarTicketsAuto (inv_expulsarPorQuantum h)

theorem inv_despachar {s : SimuladorLoteria} {rand : Int} {eleccion : Nat} (h : Inv s) :
    Inv (despachar s rand eleccion) := by
  unfold despachar
  cases hg : (sortearProceso s rand eleccion).2 with
  | none =>
      exact inv_de_campos (sortearProceso_fst s rand eleccion).1
        (sortearProceso_fst s rand eleccion).2.2.1 (sortearProceso_fst s rand eleccion).2.1 h
  | some g =>
      unfold instalarGanador
      dsimp only
      have hQc : ((sortearProceso s rand eleccion).1).cola_listos = s.cola_listos :=
        (sortearProceso_fst s rand eleccion).1
      have hQt : ((sortearProceso s rand eleccion).1).procesos_terminados = s.procesos_terminados :=
        (sortearProceso_fst s rand eleccion).2.2.1
      have hgid : g.identificador ∈ idsDe s.cola_listos := by
        have := mem_of_mem_elegibles (sortear_ganador_mem hg)
        exact List.mem_map_of_mem (fun p => p.identificador) this
      have hdevid :
          (devolver_tickets
            (inicioEjecucion { g with estado := Estado.EJECUTANDO }
              ((sortearProceso s rand eleccion).1).tiempo_actual)
            (removeById ((sortearProceso s rand eleccion).1).cola_listos g.identificador)).2.identificador =
            g.identificador := by
        rw [devolver_snd_id, (inicioEjecucion_campos _ _).1]
      have hidsrem : idsDe (removeById ((sortearProceso s rand eleccion).1).cola_listos g.identificador) =
          idsDe (removeById s.cola_listos g.identificador) := by
        rw [hQc]
      refine ⟨?_, ?_, ?_, ?_⟩
      · show (idsDe (devolver_tickets _ _).1).Nodup
        rw [idsDe_devolver, hidsrem]
        exact ((idsDe_sublist_of_sublist (removeById_sublist _ _)).nodup) h.1
      · show (idsDe ((sortearProceso s rand eleccion).1).procesos_terminados).Nodup
        rw [hQt]
        exact h.2.1
      · intro i hi
        show i ∉ idsDe ((sortearProceso s rand eleccion).1).procesos_terminados
        rw [hQt]
        have : i ∈ idsDe (removeById s.cola_listos g.identificador) := by
          have hi2 : i ∈ idsDe (devolver_tickets _ _).1 := hi
          rw [idsDe_devolver, hidsrem] at hi2
          exact hi2
        exact h.2.2.1 i ((idsDe_sublist_of_sublist (removeById_sublist _ _)).mem this)
      · intro i hi
        simp only [actualIds, List.mem_singleton] at hi
        rw [hdevid] at hi
        subst hi
        constructor
        · intro hc
          have hc2 : g.identificador ∈ idsDe (devolver_tickets _ _).1 := hc
          rw [idsDe_devolver, hidsrem] at hc2
          exact not_mem_idsDe_removeById _ _ h.1 hc2
        · show g.identificador ∉ idsDe ((sortearProceso s rand eleccion).1).procesos_terminados
          rw [hQt]
          exact h.2.2.1 _ hgid

theorem inv_faseDespacho {s : SimuladorLoteria} {rand : Int} {eleccion : Nat} (h : Inv s) :
    Inv (faseDespacho s rand eleccion) := by
  unfold faseDespacho
  by_cases hc : (s.proceso_actual.isNone || s.tiempo_quantum_restante == 0) = true
  · rw [if_pos hc]
    exact inv_despachar (inv_prepararSorteo h)
  · rw [if_neg hc]
    exact h

theorem inv_faseEjecucion {s : SimuladorLoteria} (h : Inv s) : Inv (faseEjecucion s) := by
  unfold faseEjecucion
  cases hA : s.proceso_actual with
  | none => exact h
  | some a =>
      dsimp only
      have h4 := h.2.2.2 a.identificador (by simp [actualIds, hA])
      by_cases hz : (a.tiempo_restante - 1 == (0 : Int)) = true
      · rw [if_pos hz]
        refine ⟨h.1, ?_, ?_, ?_⟩
        · show (idsDe (s.procesos_terminados ++ [_])).Nodup
          rw [idsDe_append, List.nodup_append]
          refine ⟨h.2.1, by simp [idsDe], ?_⟩
          intro i hi
          simp only [idsDe, List.map_cons, List.map_nil, List.mem_singleton]
          intro hc
          exact h4.2 (hc ▸ hi)
        · intro i hi
          show i ∉ idsDe (s.procesos_terminados ++ [_])
          rw [idsDe_append]
          intro hc
          rcases List.mem_append.mp hc with hc | hc
          · exact h.2.2.1 i hi hc
          · simp only [idsDe, List.map_cons, List.map_nil, List.mem_singleton] at hc
            exact h4.1 (hc ▸ hi)
        · intro i hi
          simp [actualIds] at hi
      · rw [if_neg hz]
        refine ⟨h.1, h.2.1, h.2.2.1, ?_⟩
        intro i hi
        simp only [actualIds, List.mem_singleton] at hi
        subst hi
        exact h4

theorem inv_ejecutar_ciclo {s : SimuladorLoteria} (rand : Int) (eleccion : Nat) (h : Inv s) :
    Inv (ejecutar_ciclo s rand eleccion) := by
  unfold ejecutar_ciclo
  by_cases hp : s.pausado = true
  · rw [if_pos hp]
    exact h
  · rw [if_neg hp]
    exact inv_faseEjecucion (inv_faseDespacho (inv_faseEnvejecimiento (inv_faseReloj h)))

theorem inv_simular_entrada_salida {s : SimuladorLoteria} (h : Inv s) :
    Inv (simular_entrada_salida s).1 := by
  unfold simular_entrada_salida
  cases hA : s.proceso_actual with
  | none => exact h
  | some a =>
      dsimp only
      have h4 := h.2.2.2 a.identificador (by simp [actualIds, hA])
      refine ⟨?_, h.2.1, ?_, ?_⟩
      · show (idsDe (s.cola_listos ++ [{ a with estado := Estado.LISTO }])).Nodup
        rw [idsDe_append, List.nodup_append]
        refine ⟨h.1, by simp [idsDe], ?_⟩
        intro i hi
        simp only [idsDe, List.map_cons, List.map_nil, List.mem_singleton]
        intro hc
        exact h4.1 (hc ▸ hi)
      · intro i hi
        rw [idsDe_append] at hi
        rcases List.mem_append.mp hi with hi | hi
        · exact h.2.2.1 i hi
        · simp only [idsDe, List.map_cons, List.map_nil, List.mem_singleton] at hi
          exact hi ▸ h4.2
      · intro i hi
        simp [actualIds] at hi

theorem inv_mkSimulador (q : Int) (m : Bool) (pool : Option Int) :
    Inv (mkSimulador q m pool) := by
  refine ⟨?_, ?_, ?_, ?_⟩ <;> simp [mkSimulador, idsDe, actualIds]

theorem inv_reiniciar (s : SimuladorLoteria) : Inv (reiniciar s) :=
  inv_mkSimulador _ _ _

theorem inv_agregar_proceso {s : SimuladorLoteria} {p : Proceso} (h : Inv s)
    (h1 : p.identificador ∉ idsDe s.cola_listos)
    (h2 : p.identificador ∉ idsDe s.procesos_terminados)
    (h3 : ∀ i ∈ actualIds s, i ≠ p.identificador) :
    Inv (agregar_proceso s p) := by
  unfold agregar_proceso
  apply inv_aplicarTicketsAuto
  refine ⟨?_, h.2.1, ?_, ?_⟩
  · show (idsDe (s.cola_listos ++ [{ p with estado := Estado.LISTO }])).Nodup
    rw [idsDe_append, List.nodup_append]
    refine ⟨h.1, by simp [idsDe], ?_⟩
    intro i hi
    simp only [idsDe, List.map_cons, List.map_nil, List.mem_singleton]
    intro hc
    exact h1 (hc ▸ hi)
  · intro i hi
    rw [idsDe_append] at hi
    rcases List.mem_append.mp hi with hi | hi
    · exact h.2.2.1 i hi
    · simp only [idsDe, List.map_cons, List.map_nil, List.mem_singleton] at hi
      exact hi ▸ h2
  · intro i hi
    have h4 := h.2.2.2 i hi
    constructor
    · show i ∉ idsDe (s.cola_listos ++ [{ p with estado := Estado.LISTO }])
      rw [idsDe_append]
      intro hc
      rcases List.mem_append.mp hc with hc | hc
      · exact h4.1 hc
      · simp only [idsDe, List.map_cons, List.map_nil, List.mem_singleton] at hc
        exact h3 i hi hc
    · exact h4.2

end InvarianteLemmas

/-- C10: under the structural invariant Inv (unique identifiers, ready
queue / running slot / terminated list pairwise disjoint), the running
process is never in the ready queue and a terminated process is never in
the ready queue or the running slot; Inv is preserved by pause, resume,
reset, forced I/O block, every cycle, and admission of a fresh
identifier. -/
theorem invariante_estado_operaciones (s : SimuladorLoteria) (hInv : Inv s) :
    ((∀ a : Proceso, s.proceso_actual = some a → a.identificador ∉ idsDe s.cola_listos) ∧
     (∀ t ∈ s.procesos_terminados, t.identificador ∉ idsDe s.cola_listos ∧
        (∀ a : Proceso, s.proceso_actual = some a → a.identificador ≠ t.identificador))) ∧
    Inv (pausar s) ∧ Inv (reanudar s) ∧ Inv (reiniciar s) ∧
    Inv (simular_entrada_salida s).1 ∧
    (∀ (rand : Int) (eleccion : Nat), Inv (ejecutar_ciclo s rand eleccion)) ∧
    (∀ p : Proceso, p.identificador ∉ idsDe s.cola_listos →
       p.identificador ∉ idsDe s.procesos_terminados →
       (∀ i ∈ actualIds s, i ≠ p.identificador) →
       Inv (agregar_proceso s p)) := by
  refine ⟨⟨?_, ?_⟩, ?_, ?_, ?_, ?_, ?_, ?_⟩
  · intro a ha
    exact (hInv.2.2.2 a.identificador (by simp [actualIds, ha])).1
  · intro t ht
    have htid : t.identificador ∈ idsDe s.procesos_terminados :=
      List.mem_map_of_mem (fun p => p.identificador) ht
    constructor
    · intro hc
      exact hInv.2.2.1 t.identificador hc htid
    · intro a ha hc
      exact (hInv.2.2.2 a.identificador (by simp [actualIds, ha])).2 (hc ▸ htid)
  · exact inv_de_campos rfl rfl rfl hInv
  · exact inv_de_campos rfl rfl rfl hInv
  · exact inv_reiniciar s
  · exact inv_simular_entrada_salida hInv
  · intro rand eleccion
    exact inv_ejecutar_ciclo rand eleccion hInv
  · intro p h1 h2 h3
    exact inv_agregar_proceso hInv h1 h2 h3

/-- C10 witness: the invariant consequences and its preservation by every
public operation, instantiated on the concrete two-process manual
simulator. -/
theorem invariante_estado_operaciones_testigo :
    ((∀ a : Proceso, ejemploManualCS.proceso_actual = some a →
        a.identificador ∉ idsDe ejemploManualCS.cola_listos) ∧
     (∀ t ∈ ejemploManualCS.procesos_terminados,
        t.identificador ∉ idsDe ejemploManualCS.cola_listos ∧
        (∀ a : Proceso, ejemploManualCS.proceso_actual = some a →
           a.identificador ≠ t.identificador))) ∧
    Inv (pausar ejemploManualCS) ∧ Inv (reanudar ejemploManualCS) ∧
    Inv (reiniciar ejemploManualCS) ∧
    Inv (simular_entrada_salida ejemploManualCS).1 ∧
    (∀ (rand : Int) (eleccion : Nat), Inv (ejecutar_ciclo ejemploManualCS rand eleccion)) ∧
    (∀ p : Proceso, p.identificador ∉ idsDe ejemploManualCS.cola_listos →
       p.identificador ∉ idsDe ejemploManualCS.procesos_terminados →
       (∀ i ∈ actualIds ejemploManualCS, i ≠ p.identificador) →
       Inv (agregar_proceso ejemploManualCS p)) :=
  invariante_estado_operaciones ejemploManualCS (by decide)

section EnvejecimientoLemmas

theorem faseEjecucion_cola (s : SimuladorLoteria) :
    (faseEjecucion s).cola_listos = s.cola_listos := by
  unfold faseEjecucion
  cases s.proceso_actual with
  | none => rfl
  | some a =>
      dsimp only
      by_cases hz : (a.tiempo_restante - 1 == (0 : Int)) = true
      · rw [if_pos hz]
      · rw [if_neg hz]

theorem faseEjecucion_pausado (s : SimuladorLoteria) :
    (faseEjecucion s).pausado = s.pausado := by
  unfold faseEjecucion
  cases s.proceso_actual with
  | none => rfl
  | some a =>
      dsimp only
      by_cases hz : (a.tiempo_restante - 1 == (0 : Int)) = true
      · rw [if_pos hz]
      · rw [if_neg hz]

theorem despachar_pausado (s : SimuladorLoteria) (rand : Int) (eleccion : Nat) :
    (despachar s rand eleccion).pausado = s.pausado := by
  unfold despachar
  cases h : (sortearProceso s rand eleccion).2 with
  | none => exact (sortearProceso_fst s rand eleccion).2.2.2.2.2.2.1
  | some g =>
      unfold instalarGanador
      dsimp only
      exact (sortearProceso_fst s rand eleccion).2.2.2.2.2.2.1

theorem faseDespacho_pausado (s : SimuladorLoteria) (rand : Int) (eleccion : Nat) :
    (faseDespacho s rand eleccion).pausado = s.pausado := by
  unfold faseDespacho
  by_cases h : (s.proceso_actual.isNone || s.tiempo_quantum_restante == 0) = true
  · rw [if_pos h, despachar_pausado]
    unfold prepararSorteo
    rw [(aplicarTicketsAuto_proj _).2.2.2.1, (expulsarPorQuantum_proj _).2.2.1]
  · rw [if_neg h]

theorem pausado_ejecutar_ciclo (s : SimuladorLoteria) (rand : Int) (eleccion : Nat) :
    (ejecutar_ciclo s rand eleccion).pausado = s.pausado := by
  unfold ejecutar_ciclo
  by_cases hp : s.pausado = true
  · rw [if_pos hp]
  · rw [if_neg hp, faseEjecucion_pausado, faseDespacho_pausado,
        (faseEnvejecimiento_proj _).2.2.2.1, (faseReloj_proj s).2.2.2.2.1]

theorem inv_runCycles (f : Nat → Int × Nat) (n : Nat) {s : SimuladorLoteria} (h : Inv s) :
    Inv (runCycles f n s) := by
  induction n with
  | zero => exact h
  | succ k ih => exact inv_ejecutar_ciclo _ _ ih

theorem pausado_runCycles (f : Nat → Int × Nat) (n : Nat) (s : SimuladorLoteria) :
    (runCycles f n s).pausado = s.pausado := by
  induction n with
  | zero => rfl
  | succ k ih => rw [runCycles, pausado_ejecutar_ciclo, ih]

theorem findById_faseEnvejecimiento {s : SimuladorLoteria} {pid : Int} {p : Proceso}
    (had : actualDistinto s pid)
    (hf : findById s.cola_listos pid = some p) :
    findById (faseEnvejecimiento (faseReloj s)).cola_listos pid = some (envejecer p) := by
  have hpid : p.identificador = pid := (mem_of_findById hf).2
  unfold faseEnvejecimiento faseReloj
  dsimp only
  cases hA : s.proceso_actual with
  | none =>
      rw [findById_map _ (fun q : Proceso => { q with tiempo_espera := q.tiempo_espera + 1 })
        (fun q => rfl), hf]
      rfl
  | some a =>
      have hfid : ∀ q : Proceso,
          ((fun q : Proceso =>
            if q.identificador == a.identificador then q
            else { q with tiempo_espera := q.tiempo_espera + 1 }) q).identificador =
            q.identificador := by
        intro q
        by_cases hc : (q.identificador == a.identificador) = true
        · simp [hc]
        · simp [hc]
      rw [findById_map _ _ hfid, hf, Option.map_some']
      have hane : a.identificador ≠ pid := by
        unfold actualDistinto at had
        rw [hA] at had
        exact had
      rw [if_neg (by simp [hpid]; exact fun hc => hane hc.symm)]
      rfl

theorem findById_prepararSorteo {t : SimuladorLoteria} {pid : Int} {p : Proceso}
    (had : actualDistinto t pid)
    (hf : findById t.cola_listos pid = some p) :
    ∃ p2, findById (prepararSorteo t).cola_listos pid = some p2 ∧
      p2.tiempo_espera = p.tiempo_espera ∧ p2.prioridad = p.prioridad ∧
      p2.identificador = p.identificador := by
  have hexp : findById (expulsarPorQuantum t).cola_listos pid = some p := by
    unfold expulsarPorQuantum
    cases hA : t.proceso_actual with
    | none => exact hf
    | some a =>
        dsimp only
        by_cases hr : 0 < a.tiempo_restante
        · rw [if_pos hr]
          exact findById_append _ _ _ _ hf
        · rw [if_neg hr]
          exact hf
  unfold prepararSorteo aplicarTicketsAuto
  by_cases hm : (expulsarPorQuantum t).usar_tickets_manual = true
  · rw [if_pos hm]
    exact ⟨p, hexp, rfl, rfl, rfl⟩
  · rw [if_neg hm]
    refine ⟨{ p with num_tickets := ticketsAutomaticos p }, ?_, rfl, rfl, rfl⟩
    show findById (asignar_tickets _) pid = _
    unfold asignar_tickets
    rw [findById_map _ (fun q : Proceso => { q with num_tickets := ticketsAutomaticos q })
      (fun q => rfl), hexp]
    rfl

/-- One non-paused cycle: a process that is in the ready queue before and
after the cycle, and is not the running process, accumulates exactly one
unit of wait time, its priority and identifier unchanged. -/
theorem espera_tras_ciclo {s : SimuladorLoteria} {rand : Int} {eleccion : Nat} {pid : Int}
    {p q : Proceso}
    (hInv : Inv s)
    (hpaus : s.pausado = false)
    (had : actualDistinto s pid)
    (hfind : findById s.cola_listos pid = some p)
    (hfind2 : findById (ejecutar_ciclo s rand eleccion).cola_listos pid = some q) :
    q.tiempo_espera = p.tiempo_espera + 1 ∧ q.prioridad = p.prioridad ∧
    q.identificador = pid := by
  have hpid : p.identificador = pid := (mem_of_findById hfind).2
  have hrun : ejecutar_ciclo s rand eleccion =
      faseEjecucion (faseDespacho (faseEnvejecimiento (faseReloj s)) rand eleccion) := by
    unfold ejecutar_ciclo
    rw [hpaus]
    simp
  rw [hrun, faseEjecucion_cola] at hfind2
  have hage : findById (faseEnvejecimiento (faseReloj s)).cola_listos pid =
      some (envejecer p) := findById_faseEnvejecimiento had hfind
  have hadE : actualDistinto (faseEnvejecimiento (faseReloj s)) pid := had
  have hInvP : Inv (prepararSorteo (faseEnvejecimiento (faseReloj s))) :=
    inv_prepararSorteo (inv_faseEnvejecimiento (inv_faseReloj hInv))
  obtain ⟨p2, hfp2, he2, hpr2, hid2⟩ := findById_prepararSorteo hadE hage
  have he2' : p2.tiempo_espera = p.tiempo_espera + 1 := by
    rw [he2]
    rfl
  have hpr2' : p2.prioridad = p.prioridad := by
    rw [hpr2]
    rfl
  have hid2' : p2.identificador = pid := by
    rw [hid2]
    exact hpid
  unfold faseDespacho at hfind2
  by_cases hc : ((faseEnvejecimiento (faseReloj s)).proceso_actual.isNone ||
      (faseEnvejecimiento (faseReloj s)).tiempo_quantum_restante == 0) = true
  · rw [if_pos hc] at hfind2
    unfold despachar at hfind2
    cases hg : (sortearProceso (prepararSorteo (faseEnvejecimiento (faseReloj s))) rand eleccion).2 with
    | none =>
        rw [hg] at hfind2
        rw [(sortearProceso_fst _ rand eleccion).1, hfp2] at hfind2
        cases hfind2
        exact ⟨he2', hpr2', hid2'⟩
    | some g =>
        rw [hg] at hfind2
        unfold instalarGanador at hfind2
        dsimp only at hfind2
        rw [(sortearProceso_fst _ rand eleccion).1] at hfind2
        by_cases hgp : g.identificador = pid
        · exfalso
          have hnone : findById
              (removeById (prepararSorteo (faseEnvejecimiento (faseReloj s))).cola_listos
                g.identificador) pid = none := by
            apply findById_none_of_not_mem
            rw [hgp]
            exact not_mem_idsDe_removeById _ _ hInvP.1
          have hidsF : ∀ r : Proceso,
              ((fun r : Proceso =>
                if r.proceso_servidor ==
                    (inicioEjecucion { g with estado := Estado.EJECUTANDO }
                      ((sortearProceso (prepararSorteo (faseEnvejecimiento (faseReloj s))) rand eleccion).1).tiempo_actual).identificador &&
                    decide (0 < r.tickets_prestados) then
                  { r with num_tickets := r.num_tickets + r.tickets_prestados,
                           tickets_prestados := 0 }
                else r) r).identificador = r.identificador := by
            intro r
            by_cases hcr : (r.proceso_servidor ==
                (inicioEjecucion { g with estado := Estado.EJECUTANDO }
                  ((sortearProceso (prepararSorteo (faseEnvejecimiento (faseReloj s))) rand eleccion).1).tiempo_actual).identificador &&
                decide (0 < r.tickets_prestados)) = true
            · simp [hcr]
            · simp [hcr]
          rw [devolver_fst, findById_map _ _ hidsF, hnone] at hfind2
          cases hfind2
        · have hidsF : ∀ r : Proceso,
              ((fun r : Proceso =>
                if r.proceso_servidor ==
                    (inicioEjecucion { g with estado := Estado.EJECUTANDO }
                      ((sortearProceso (prepararSorteo (faseEnvejecimiento (faseReloj s))) rand eleccion).1).tiempo_actual).identificador &&
                    decide (0 < r.tickets_prestados) then
                  { r with num_tickets := r.num_tickets + r.tickets_prestados,
                           tickets_prestados := 0 }
                else r) r).identificador = r.identificador := by
            intro r
            by_cases hcr : (r.proceso_servidor ==
                (inicioEjecucion { g with estado := Estado.EJECUTANDO }
                  ((sortearProceso (prepararSorteo (faseEnvejecimiento (faseReloj s))) rand eleccion).1).tiempo_actual).identificador &&
                decide (0 < r.tickets_prestados)) = true
            · simp [hcr]
            · simp [hcr]
          rw [devolver_fst, findById_map _ _ hidsF,
              findById_removeById_ne _ _ _ (fun hcon => hgp hcon.symm), hfp2,
              Option.map_some'] at hfind2
          have hq := hfind2.symm
          cases hq
          by_cases hcr : (p2.proceso_servidor ==
              (inicioEjecucion { g with estado := Estado.EJECUTANDO }
                ((sortearProceso (prepararSorteo (faseEnvejecimiento (faseReloj s))) rand eleccion).1).tiempo_actual).identificador &&
              decide (0 < p2.tickets_prestados)) = true
          · rw [if_pos hcr]
            exact ⟨he2', hpr2', hid2'⟩
          · rw [if_neg hcr]
            exact ⟨he2', hpr2', hid2'⟩
  · rw [if_neg hc] at hfind2
    rw [hage] at hfind2
    cases hfind2
    exact ⟨rfl, rfl, hpid⟩

instance (s : SimuladorLoteria) (i : Int) : Decidable (actualDistinto s i) := by
  unfold actualDistinto
  cases s.proceso_actual with
  | none => exact inferInstanceAs (Decidable True)
  | some a => exact inferInstanceAs (Decidable (a.identificador ≠ i))

/-- Wait time grows by exactly one per cycle for a process that remains
ready and unselected across a non-paused run. -/
theorem espera_tras_ciclos (f : Nat → Int × Nat) (s : SimuladorLoteria) (pid : Int)
    (p : Proceso) (n : Nat)
    (hInv : Inv s)
    (hpaus : s.pausado = false)
    (hfind : findById s.cola_listos pid = some p)
    (hstay : ∀ k, k ≤ n → actualDistinto (runCycles f k s) pid ∧
       ∃ qk, findById (runCycles f k s).cola_listos pid = some qk) :
    ∃ q, findById (runCycles f n s).cola_listos pid = some q ∧
      q.tiempo_espera = p.tiempo_espera + n ∧ q.prioridad = p.prioridad := by
  induction n with
  | zero => exact ⟨p, hfind, rfl, rfl⟩
  | succ k ih =>
      obtain ⟨q, hq, hqe, hqp⟩ := ih (fun j hj => hstay j (Nat.le_succ_of_le hj))
      obtain ⟨q2, hq2⟩ := (hstay (k + 1) (Nat.le_refl _)).2
      have hstep := espera_tras_ciclo (inv_runCycles f k hInv)
        (by rw [pausado_runCycles]; exact hpaus)
        (hstay k (Nat.le_succ_of_le (Nat.le_refl _))).1 hq hq2
      exact ⟨q2, hq2, by omega, by rw [hstep.2.1, hqp]⟩

/-- The automatic formula is monotone in the accumulated wait time. -/
theorem ticketsAutomaticos_monotono (p : Proceso) (w1 w2 : Nat) (h : w1 ≤ w2) :
    ticketsAutomaticos { p with tiempo_espera := w1 } ≤
      ticketsAutomaticos { p with tiempo_espera := w2 } := by
  unfold ticketsAutomaticos
  dsimp only
  have := Nat.div_le_div_right (c := 5) h
  omega

/-- The automatic formula exceeds any fixed bound once the wait bonus has
grown enough. -/
theorem ticketsAutomaticos_no_acotado (p : Proceso) (w : Nat) (B : Int) :
    ∃ N : Nat, ∀ n, N ≤ n → B < ticketsAutomaticos { p with tiempo_espera := w + n } := by
  refine ⟨5 * ((B - p.prioridad * 10).toNat + 1), ?_⟩
  intro n hn
  unfold ticketsAutomaticos
  dsimp only
  have h1 : ((B - p.prioridad * 10).toNat + 1) * 5 ≤ w + n := by omega
  have h2 : (B - p.prioridad * 10).toNat + 1 ≤ (w + n) / 5 :=
    (Nat.le_div_iff_mul_le (by norm_num)).mpr h1
  have h3 : B - p.prioridad * 10 ≤ ((B - p.prioridad * 10).toNat : Int) := Int.self_le_toNat _
  omega

/-- The per-element aging function of the aging phase, abstracted over
the running process. -/
def envejecerSegunActual (act : Option Proceso) (p : Proceso) : Proceso :=
  match act with
  | some a =>
      if p.identificador == a.identificador then p
      else { p with tiempo_espera := p.tiempo_espera + 1 }
  | none => { p with tiempo_espera := p.tiempo_espera + 1 }

/-- Pointwise form of the aging map, abstracted over the running
process. -/
theorem envejecimientoPuntual (act : Option Proceso) (l : List Proceso) (i : Nat)
    (h1 : i < l.length)
    (h2 : i < (l.map (envejecerSegunActual act)).length)
    (had : ∀ a, act = some a → a.identificador ≠ (l.get ⟨i, h1⟩).identificador) :
    ((l.map (envejecerSegunActual act)).get ⟨i, h2⟩).tiempo_espera =
      (l.get ⟨i, h1⟩).tiempo_espera + 1 := by
  simp only [List.get_eq_getElem, List.getElem_map]
  unfold envejecerSegunActual
  cases act with
  | none => rfl
  | some a =>
      dsimp only
      have hane := had a rfl
      simp only [List.get_eq_getElem] at hane
      rw [if_neg (by simp; exact fun hc => hane hc.symm)]

end EnvejecimientoLemmas

/-- C4: every non-paused cycle ages, by exactly one unit, each ready
process other than the running one; the pre-draw reassignment applies the
priority * 10 + wait / 5 formula to the whole pre-draw queue; over n
cycles an unselected ready process accumulates exactly n extra wait
units; and the assigned ticket value is nondecreasing in the wait time
and exceeds any fixed bound after finitely many cycles. -/
theorem envejecimiento_anti_inanicion :
    (∀ (s : SimuladorLoteria) (i : Nat) (h1 : i < s.cola_listos.length)
       (h2 : i < (faseEnvejecimiento s).cola_listos.length),
       actualDistinto s ((s.cola_listos.get ⟨i, h1⟩).identificador) →
       ((faseEnvejecimiento s).cola_listos.get ⟨i, h2⟩).tiempo_espera =
         (s.cola_listos.get ⟨i, h1⟩).tiempo_espera + 1) ∧
    (∀ (s : SimuladorLoteria) (rand : Int) (eleccion : Nat), s.pausado = false →
       ejecutar_ciclo s rand eleccion =
         faseEjecucion (faseDespacho (faseEnvejecimiento (faseReloj s)) rand eleccion)) ∧
    (∀ s : SimuladorLoteria, s.usar_tickets_manual = false →
       ∀ q ∈ (prepararSorteo s).cola_listos, q.num_tickets = ticketsAutomaticos q) ∧
    (∀ (f : Nat → Int × Nat) (s : SimuladorLoteria) (pid : Int) (p : Proceso) (n : Nat),
       Inv s → s.pausado = false → findById s.cola_listos pid = some p →
       (∀ k, k ≤ n → actualDistinto (runCycles f k s) pid ∧
          ∃ qk, findById (runCycles f k s).cola_listos pid = some qk) →
       ∃ q, findById (runCycles f n s).cola_listos pid = some q ∧
         q.tiempo_espera = p.tiempo_espera + n ∧ q.prioridad = p.prioridad) ∧
    (∀ (p : Proceso) (w1 w2 : Nat), w1 ≤ w2 →
       ticketsAutomaticos { p with tiempo_espera := w1 } ≤
         ticketsAutomaticos { p with tiempo_espera := w2 }) ∧
    (∀ (p : Proceso) (w : Nat) (B : Int),
       ∃ N : Nat, ∀ n, N ≤ n → B < ticketsAutomaticos { p with tiempo_espera := w + n }) := by
  refine ⟨?_, ?_, ?_, ?_, ?_, ?_⟩
  · intro s i h1 h2 had
    refine envejecimientoPuntual s.proceso_actual s.cola_listos i h1 h2 ?_
    intro a ha
    unfold actualDistinto at had
    rw [ha] at had
    exact had
  · intro s rand eleccion hp
    unfold ejecutar_ciclo
    rw [hp]
    simp
  · intro s hm q hq
    unfold prepararSorteo aplicarTicketsAuto at hq
    rw [(expulsarPorQuantum_proj s).2.2.2.1, hm] at hq
    simp only [Bool.false_eq_true, if_false] at hq
    exact asignar_tickets_mem hq
  · intro f s pid p n hInv hpaus hfind hstay
    exact espera_tras_ciclos f s pid p n hInv hpaus hfind hstay
  · exact ticketsAutomaticos_monotono
  · exact ticketsAutomaticos_no_acotado

/-- C4 witness: on the concrete client-server example the blocked client
(never selectable before its server completes) gains exactly one wait
unit per cycle over two cycles, and the formula facts instantiate at
concrete waits and bound 100. -/
theorem envejecimiento_anti_inanicion_testigo :
    ((faseEnvejecimiento ejemploManualCS).cola_listos.get ⟨0, by decide⟩).tiempo_espera =
      (ejemploManualCS.cola_listos.get ⟨0, by decide⟩).tiempo_espera + 1 ∧
    ejecutar_ciclo ejemploManualCS 1 0 =
      faseEjecucion (faseDespacho (faseEnvejecimiento (faseReloj ejemploManualCS)) 1 0) ∧
    (∀ q ∈ (prepararSorteo ejemploAuto).cola_listos, q.num_tickets = ticketsAutomaticos q) ∧
    (∃ q, findById (runCycles (fun k => (1, 0)) 2 ejemploManualCS).cola_listos 2 = some q ∧
       q.tiempo_espera = ejemploClienteListo.tiempo_espera + 2 ∧
       q.prioridad = ejemploClienteListo.prioridad) ∧
    ticketsAutomaticos { ejemploClienteListo with tiempo_espera := 0 } ≤
      ticketsAutomaticos { ejemploClienteListo with tiempo_espera := 5 } ∧
    (∃ N : Nat, ∀ n, N ≤ n →
       (100 : Int) < ticketsAutomaticos { ejemploClienteListo with tiempo_espera := 0 + n }) := by
  refine ⟨envejecimiento_anti_inanicion.1 ejemploManualCS 0 (by decide) (by decide) (by decide),
          envejecimiento_anti_inanicion.2.1 ejemploManualCS 1 0 (by decide),
          envejecimiento_anti_inanicion.2.2.1 ejemploAuto (by decide),
          envejecimiento_anti_inanicion.2.2.2.1 (fun k => (1, 0)) ejemploManualCS 2
            ejemploClienteListo 2 (by decide) (by decide) (by decide) ?_,
          envejecimiento_anti_inanicion.2.2.2.2.1 ejemploClienteListo 0 5 (by decide),
          envejecimiento_anti_inanicion.2.2.2.2.2 ejemploClienteListo 0 100⟩
  intro k hk
  interval_cases k <;> exact ⟨by decide, ⟨_, rfl⟩⟩

end Loteria
